import Mathlib

/-!
The gateway session engine of esp-discord.

A shallow embedding of `src/discord/private/_gateway.c` (frame reassembly,
payload filter, heartbeat, close and payload handling) and of the close, logout,
configuration and worker-switch code of the older engine in `src/discord.c`
(namespace `Legacy`), and theorems about them.

Conventions of the embedding

* C `int` values are `Int`; the unsigned 64-bit millisecond tick is a `Nat`
  and the one expression that mixes both (`tick - tick_ms > interval`) is
  evaluated modulo `2^64`, as the usual arithmetic conversions require.
* A pointer that may be `NULL` is an `Option`. A function that dereferences
  such a pointer returns an `Option` as well: `none` is the fault (the call
  does not return).
* The reassembly buffer is the memory around `client->buffer`, a map from
  byte index to byte value (`0..255`, `char` being unsigned on the targets of
  esp-idf); a store updates the map at the index it is given.
* What the engine hands to its collaborators is recorded in the client:
  `queue` (the FreeRTOS queue behind `client->queue`), `sent` (payloads given
  to `dcgw_send`), `emitted` (`DISCORD_EVENT_EMIT`) and `released`
  (`..._free` calls).
-/

namespace EspDiscord

/-! Constants, enumerations and models -/

abbrev esp_err_t := Int

def ESP_OK : esp_err_t := 0

def ESP_FAIL : esp_err_t := -1

/-- Constants of the private headers (`discord/private/_discord.h`,
`discord/private/_gateway.h`), which are not among the sources: the null
sequence number, the numeric value of the enumerator
`DISCORD_CLIENT_STATE_DISCONNECTING`, and the close-code range and sentinel.
Every definition that needs one of them takes the header as a parameter. -/
structure gateway_header where
  DISCORD_NULL_SEQUENCE_NUMBER : Int
  DISCORD_CLIENT_STATE_DISCONNECTING : Int
  DISCORD_CLOSEOP_MIN : Int
  DISCORD_CLOSEOP_MAX : Int
  DISCORD_CLOSEOP_NO_CODE : Int

/-- Client states: the six enumerators of `discord_client_state_t` as declared
in `discord.c`, and `DISCORD_CLIENT_STATE_DISCONNECTING`, which `_gateway.c`
uses in addition. -/
inductive discord_client_state_t where
  | DISCORD_CLIENT_STATE_ERROR
  | DISCORD_CLIENT_STATE_DISCONNECTED
  | DISCORD_CLIENT_STATE_UNKNOWN
  | DISCORD_CLIENT_STATE_INIT
  | DISCORD_CLIENT_STATE_CONNECTING
  | DISCORD_CLIENT_STATE_CONNECTED
  | DISCORD_CLIENT_STATE_DISCONNECTING
  deriving DecidableEq

open discord_client_state_t

/-- Numeric value of a state enumerator (`ERROR = -2`, `DISCONNECTED = -1`,
`UNKNOWN = 0`, `INIT`, `CONNECTING`, `CONNECTED`), used by the comparisons
`state >= INIT` and `state < CONNECTED`. -/
def discord_client_state_t.val (H : gateway_header) : discord_client_state_t → Int
  | DISCORD_CLIENT_STATE_ERROR => -2
  | DISCORD_CLIENT_STATE_DISCONNECTED => -1
  | DISCORD_CLIENT_STATE_UNKNOWN => 0
  | DISCORD_CLIENT_STATE_INIT => 1
  | DISCORD_CLIENT_STATE_CONNECTING => 2
  | DISCORD_CLIENT_STATE_CONNECTED => 3
  | DISCORD_CLIENT_STATE_DISCONNECTING => H.DISCORD_CLIENT_STATE_DISCONNECTING

/-- Modelled from the spec: the declaration of `discord_close_reason_t` used by
`_gateway.c` is in a header that is not among the sources; the spec lists
`NotRequested, ReconnectRequested, LogoutRequested, HeartbeatAckMissing`. -/
inductive discord_close_reason_t where
  | DISCORD_CLOSE_REASON_NOT_REQUESTED
  | DISCORD_CLOSE_REASON_RECONNECT
  | DISCORD_CLOSE_REASON_LOGOUT
  | DISCORD_CLOSE_REASON_HEARTBEAT_ACK_NOT_RECEIVED
  deriving DecidableEq

open discord_close_reason_t

/-- Gateway opcodes named in `_gateway.c`; any other opcode is `DISCORD_OP_OTHER`. -/
inductive discord_gateway_op_t where
  | DISCORD_OP_DISPATCH
  | DISCORD_OP_HEARTBEAT
  | DISCORD_OP_IDENTIFY
  | DISCORD_OP_HELLO
  | DISCORD_OP_HEARTBEAT_ACK
  | DISCORD_OP_OTHER (code : Int)
  deriving DecidableEq

open discord_gateway_op_t

/-- Dispatch event names named in `_gateway.c`; any other name (or none) is
`DISCORD_GATEWAY_EVENT_OTHER`. -/
inductive discord_gateway_event_t where
  | DISCORD_GATEWAY_EVENT_READY
  | DISCORD_GATEWAY_EVENT_MESSAGE_CREATE
  | DISCORD_GATEWAY_EVENT_MESSAGE_UPDATE
  | DISCORD_GATEWAY_EVENT_MESSAGE_DELETE
  | DISCORD_GATEWAY_EVENT_OTHER (code : Int)
  deriving DecidableEq

open discord_gateway_event_t

/-- Consumer events emitted by `dcgw_dispatch`. -/
inductive discord_event_id_t where
  | DISCORD_EVENT_CONNECTED
  | DISCORD_EVENT_MESSAGE_RECEIVED
  | DISCORD_EVENT_MESSAGE_UPDATED
  | DISCORD_EVENT_MESSAGE_DELETED
  deriving DecidableEq

open discord_event_id_t

/-- Websocket frame opcodes of `esp_transport_ws.h`. -/
inductive ws_transport_opcodes_t where
  | WS_TRANSPORT_OPCODES_CONT
  | WS_TRANSPORT_OPCODES_TEXT
  | WS_TRANSPORT_OPCODES_BINARY
  | WS_TRANSPORT_OPCODES_CLOSE
  | WS_TRANSPORT_OPCODES_PING
  | WS_TRANSPORT_OPCODES_PONG
  | WS_TRANSPORT_OPCODES_FIN
  deriving DecidableEq

open ws_transport_opcodes_t

/-- Transport events of `esp_websocket_client.h`; any other id is `WEBSOCKET_EVENT_OTHER`. -/
inductive esp_websocket_event_id_t where
  | WEBSOCKET_EVENT_ERROR
  | WEBSOCKET_EVENT_CONNECTED
  | WEBSOCKET_EVENT_DISCONNECTED
  | WEBSOCKET_EVENT_DATA
  | WEBSOCKET_EVENT_CLOSED
  | WEBSOCKET_EVENT_OTHER (id : Int)
  deriving DecidableEq

open esp_websocket_event_id_t

/-- The user model of `include/discord/models.h`. The id is always set by
`discord_model_user` (`discord_models.c`); the other strings may be `NULL`. -/
structure discord_user_t where
  id : String
  bot : Bool
  username : Option String
  discriminator : Option String
  deriving DecidableEq

/-- The message model of `include/discord/models.h`. -/
structure discord_message_t where
  id : Option String
  content : Option String
  channel_id : Option String
  author : Option discord_user_t
  deriving DecidableEq

/-- The body of the READY event: session id and user, both always set by the
constructor in `discord_models.c`. -/
structure discord_gateway_session_t where
  session_id : String
  user : discord_user_t
  deriving DecidableEq

/-- The body of a Hello payload. -/
structure discord_gateway_hello_t where
  heartbeat_interval : Int
  deriving DecidableEq

/-- The three strings given to `discord_model_gateway_identify_properties`. -/
structure discord_gateway_identify_properties_t where
  os : String
  browser : String
  device : String
  deriving DecidableEq

/-- The body of an Identify payload: the arguments of
`discord_model_gateway_identify`. It has no session id and no sequence. -/
structure discord_gateway_identify_t where
  token : String
  intents : Int
  properties : discord_gateway_identify_properties_t
  deriving DecidableEq

/-- What `payload->d` points to. The codec gives each opcode and event its own
body type. -/
inductive discord_gateway_payload_data_t where
  | hello (h : discord_gateway_hello_t)
  | heartbeat (s : Int)
  | identify (i : discord_gateway_identify_t)
  | session (s : discord_gateway_session_t)
  | message (m : discord_message_t)
  deriving DecidableEq

/-- The gateway payload (envelope): opcode, body, sequence and event name. -/
structure discord_gateway_payload_t where
  op : discord_gateway_op_t
  d : Option discord_gateway_payload_data_t
  s : Int
  t : discord_gateway_event_t
  deriving DecidableEq

/-- The cast `(discord_gateway_hello_t*) payload->d`. A body of another type is
not produced by the codec for a Hello payload; it is read as absent. -/
def as_hello : Option discord_gateway_payload_data_t → Option discord_gateway_hello_t
  | some (.hello h) => some h
  | _ => none

/-- The cast `(discord_message_t*) payload->d`. -/
def as_message : Option discord_gateway_payload_data_t → Option discord_message_t
  | some (.message m) => some m
  | _ => none

/-- The cast `(discord_gateway_session_t*) payload->d`. -/
def as_session : Option discord_gateway_payload_data_t → Option discord_gateway_session_t
  | some (.session s) => some s
  | _ => none

/-- Modelled from the spec: `discord_model_gateway_payload` is part of the
envelope codec, which is not among the sources. It builds an outbound payload
from an opcode and a body; an outbound payload carries no event name, and its
sequence field is the null sentinel. -/
def discord_model_gateway_payload (H : gateway_header) (op : discord_gateway_op_t)
    (d : discord_gateway_payload_data_t) : discord_gateway_payload_t :=
  { op := op, d := some d, s := H.DISCORD_NULL_SEQUENCE_NUMBER, t := DISCORD_GATEWAY_EVENT_OTHER 0 }

/-- Modelled from the spec: `discord_streq` is declared in `discord/utils.h`,
which is not among the sources; it is string equality. -/
def discord_streq (s1 s2 : String) : Bool := decide (s1 = s2)

structure discord_client_config_t where
  token : String
  intents : Int
  buffer_size : Int
  deriving DecidableEq

/-- The heartbeater of `discord.c`: `int interval`, `uint64_t tick_ms`. -/
structure discord_heartbeater_t where
  running : Bool
  interval : Int
  tick_ms : Nat
  received_ack : Bool
  deriving DecidableEq

/-- What the engine reads of the transport handle `client->ws`: whether it is
connected (`esp_websocket_client_is_connected`). -/
structure esp_websocket_client where
  connected : Bool
  deriving DecidableEq

/-- One record of a `..._free` call: the session given to
`discord_model_gateway_session_free`, or the payload (with its body slot as it
is at that moment) given to `discord_model_gateway_payload_free`. -/
inductive released_t where
  | session (s : discord_gateway_session_t)
  | payload (p : discord_gateway_payload_t)
  deriving DecidableEq

/-- One fragment event of the transport (`esp_websocket_event_data_t`). -/
structure esp_websocket_event_data_t where
  op_code : ws_transport_opcodes_t
  data_ptr : List Nat
  data_len : Int
  payload_len : Int
  payload_offset : Int

/-- The client. `queue_size` is the capacity of the queue behind
`client->queue`; `sent`, `emitted` and `released` record calls, see the
conventions above. -/
structure discord_client where
  state : discord_client_state_t
  running : Bool
  config : discord_client_config_t
  ws : esp_websocket_client
  heartbeater : discord_heartbeater_t
  session : Option discord_gateway_session_t
  last_sequence_number : Int
  close_reason : discord_close_reason_t
  close_code : Int
  buffer : Int → Nat
  buffer_len : Int
  queue : List discord_gateway_payload_t
  queue_size : Nat
  sent : List discord_gateway_payload_t
  emitted : List (discord_event_id_t × Option discord_gateway_payload_data_t)
  released : List released_t

/-- The collaborators the engine calls: the envelope decoder
(`discord_model_gateway_payload_deserialize`, given the buffered bytes), the
result of `esp_websocket_client_send_text` for a payload (bytes sent, or
`ESP_FAIL`), and the result of `esp_websocket_client_start`. -/
structure gateway_env where
  deserialize : List Nat → Option discord_gateway_payload_t
  send_text : discord_gateway_payload_t → Int
  client_start : esp_err_t

/-- The store `memcpy(buffer + offset, src, n)`: index `offset + k` receives
byte `k` of the source for `0 <= k < n`. The transport never announces more
bytes than it delivers (`n <= src.length`); a byte read past the source is
taken as 0. -/
def memcpy (buffer : Int → Nat) (offset : Int) (src : List Nat) (n : Int) : Int → Nat :=
  fun i => if offset ≤ i ∧ i < offset + n then src.getD (i - offset).toNat 0 else buffer i

/-- The store `buffer[index] = value`. -/
def store_byte (buffer : Int → Nat) (index : Int) (value : Nat) : Int → Nat :=
  fun i => if i = index then value else buffer i

/-- The bytes `buffer[0..n)`. -/
def buffer_span (buffer : Int → Nat) (n : Int) : List Nat :=
  (List.range n.toNat).map (fun (i : Nat) => buffer (i : Int))

/-- The call `xQueueSend(client->queue, &payload, timeout)`: the payload is
appended when the queue has room, and the call fails (not `pdPASS`) when the
queue is full, nothing being dequeued while the caller waits. -/
def xQueueSend (client : discord_client) (payload : discord_gateway_payload_t) :
    Bool × discord_client :=
  if client.queue.length < client.queue_size then
    (true, { client with queue := client.queue ++ [payload] })
  else
    (false, client)

/-- The call `esp_websocket_client_close`: afterwards the transport is not connected. -/
def esp_websocket_client_close (ws : esp_websocket_client) : esp_websocket_client :=
  { ws with connected := false }

/-! The functions of `_gateway.c` -/

def dcgw_heartbeat_stop (client : discord_client) : esp_err_t × discord_client :=
  let client := { client with heartbeater := { client.heartbeater with running := false } }
  let client := { client with heartbeater := { client.heartbeater with interval := 0 } }
  let client := { client with heartbeater := { client.heartbeater with tick_ms := 0 } }
  let client := { client with heartbeater := { client.heartbeater with received_ack := false } }
  (ESP_OK, client)

def dcgw_reset (H : gateway_header) (client : discord_client) : esp_err_t × discord_client :=
  let client := (dcgw_heartbeat_stop client).2
  let client := { client with last_sequence_number := H.DISCORD_NULL_SEQUENCE_NUMBER }
  let client := { client with buffer_len := 0 }
  (ESP_OK, client)

def dcgw_init (H : gateway_header) (client : discord_client) : esp_err_t × discord_client :=
  let client := (dcgw_reset H client).2
  let client := { client with state := DISCORD_CLIENT_STATE_UNKNOWN }
  let client := { client with close_reason := DISCORD_CLOSE_REASON_NOT_REQUESTED }
  let client := { client with close_code := H.DISCORD_CLOSEOP_NO_CODE }
  (ESP_OK, client)

def dcgw_send (E : gateway_env) (client : discord_client) (payload : discord_gateway_payload_t) :
    esp_err_t × discord_client :=
  let sent_bytes := E.send_text payload
  let client := { client with sent := client.sent ++ [payload] }
  if sent_bytes = ESP_FAIL then (ESP_FAIL, client) else (ESP_OK, client)

def dcgw_is_open (H : gateway_header) (client : discord_client) : Bool :=
  client.running && decide (client.state.val H ≥ DISCORD_CLIENT_STATE_INIT.val H)

/-- The filter of lines 65-93. The comparison of the author id with
`client->session->user->id` dereferences the session: without a session the
call faults (`none`). -/
def dcgw_whether_payload_should_go_into_queue (H : gateway_header) (client : discord_client)
    (payload : Option discord_gateway_payload_t) : Option Bool :=
  match payload with
  | none => some false
  | some payload =>
    if payload.op = DISCORD_OP_DISPATCH then
      if client.state.val H < DISCORD_CLIENT_STATE_CONNECTED.val H
          ∧ payload.t ≠ DISCORD_GATEWAY_EVENT_READY then
        some false
      else if payload.t = DISCORD_GATEWAY_EVENT_MESSAGE_CREATE
          ∨ payload.t = DISCORD_GATEWAY_EVENT_MESSAGE_UPDATE then
        match as_message payload.d with
        | none => some false
        | some msg =>
          match msg.content with
          | none => some false
          | some _ =>
            match msg.author with
            | none => some false
            | some author =>
              match client.session with
              | none => none
              | some session =>
                if discord_streq author.id session.user.id then some false else some true
      else
        some true
    else
      some true

/-- Lines 98-107 of `dcgw_buffer_websocket_data`: the size check (`none` when
the payload is too big), the copy of the fragment, the assignment of
`buffer_len`, and the outcome of the test `buffer_len >= payload_len`. -/
def dcgw_buffer_websocket_data_store (client : discord_client) (data : esp_websocket_event_data_t) :
    Option (discord_client × Bool) :=
  if data.payload_len > client.config.buffer_size then
    none
  else
    let client := { client with
      buffer := memcpy client.buffer data.payload_offset data.data_ptr data.data_len }
    let client := { client with buffer_len := data.data_len + data.payload_offset }
    some (client, decide (client.buffer_len ≥ data.payload_len))

/-- Lines 108-133 of `dcgw_buffer_websocket_data`: the body of the
"Buffering done." branch, entered with the client as the store left it. -/
def dcgw_buffer_websocket_data_done (H : gateway_header) (E : gateway_env) (client : discord_client)
    (data : esp_websocket_event_data_t) : Option (esp_err_t × discord_client) :=
  let client :=
    if data.op_code = WS_TRANSPORT_OPCODES_CLOSE then
      { client with state := DISCORD_CLIENT_STATE_DISCONNECTING }
    else client
  let client := { client with buffer := store_byte client.buffer client.buffer_len 0 }
  match E.deserialize (buffer_span client.buffer client.buffer_len) with
  | none => some (ESP_FAIL, client)
  | some payload =>
    let client :=
      if payload.s ≠ H.DISCORD_NULL_SEQUENCE_NUMBER then
        { client with last_sequence_number := payload.s }
      else client
    match dcgw_whether_payload_should_go_into_queue H client (some payload) with
    | none => none
    | some false =>
      some (ESP_OK, { client with released := client.released ++ [released_t.payload payload] })
    | some true =>
      match xQueueSend client payload with
      | (true, client) => some (ESP_OK, client)
      | (false, client) =>
        some (ESP_OK, { client with released := client.released ++ [released_t.payload payload] })

def dcgw_buffer_websocket_data (H : gateway_header) (E : gateway_env) (client : discord_client)
    (data : esp_websocket_event_data_t) : Option (esp_err_t × discord_client) :=
  match dcgw_buffer_websocket_data_store client data with
  | none => some (ESP_FAIL, client)
  | some (client, true) => dcgw_buffer_websocket_data_done H E client data
  | some (client, false) => some (ESP_OK, client)

def dcgw_websocket_event_handler (H : gateway_header) (E : gateway_env) (client : discord_client)
    (event_id : esp_websocket_event_id_t) (data : esp_websocket_event_data_t) :
    Option discord_client :=
  if data.op_code = WS_TRANSPORT_OPCODES_PONG then
    some client
  else
    match event_id with
    | WEBSOCKET_EVENT_CONNECTED => some { client with state := DISCORD_CLIENT_STATE_CONNECTING }
    | WEBSOCKET_EVENT_DATA =>
      if data.op_code = WS_TRANSPORT_OPCODES_TEXT ∨ data.op_code = WS_TRANSPORT_OPCODES_CLOSE then
        (dcgw_buffer_websocket_data H E client data).map Prod.snd
      else
        some client
    | WEBSOCKET_EVENT_ERROR => some { client with state := DISCORD_CLIENT_STATE_ERROR }
    | WEBSOCKET_EVENT_DISCONNECTED => some { client with state := DISCORD_CLIENT_STATE_DISCONNECTED }
    | WEBSOCKET_EVENT_CLOSED => some { client with state := DISCORD_CLIENT_STATE_DISCONNECTED }
    | WEBSOCKET_EVENT_OTHER _ => some client

def dcgw_start (H : gateway_header) (E : gateway_env) (client : discord_client) :
    esp_err_t × discord_client :=
  if dcgw_is_open H client then
    (ESP_OK, client)
  else
    let client := { client with state := DISCORD_CLIENT_STATE_INIT }
    (E.client_start, client)

def dcgw_close (H : gateway_header) (client : discord_client) (reason : discord_close_reason_t) :
    esp_err_t × discord_client :=
  if ! dcgw_is_open H client then
    (ESP_OK, client)
  else
    let client := { client with close_reason := reason }
    let client :=
      if client.ws.connected then { client with ws := esp_websocket_client_close client.ws }
      else client
    let client := (dcgw_reset H client).2
    (ESP_OK, client)

def dcgw_close_opcode (H : gateway_header) (client : discord_client) : Int :=
  if client.state = DISCORD_CLIENT_STATE_DISCONNECTING ∧ client.buffer_len ≥ 2 then
    let code : Int := 256 * (client.buffer 0 : Int) + (client.buffer 1 : Int)
    if code ≥ H.DISCORD_CLOSEOP_MIN ∧ code ≤ H.DISCORD_CLOSEOP_MAX then code
    else H.DISCORD_CLOSEOP_NO_CODE
  else
    H.DISCORD_CLOSEOP_NO_CODE

/-- The start of the heartbeater at tick `now` (the value `discord_tick_ms()`
returns). When the heartbeater is not running the Hello body is dereferenced:
without a body the call faults (`none`). -/
def dcgw_heartbeat_start (client : discord_client) (hello : Option discord_gateway_hello_t)
    (now : Nat) : Option (esp_err_t × discord_client) :=
  if client.heartbeater.running then
    some (ESP_OK, client)
  else
    match hello with
    | none => none
    | some hello =>
      let client := { client with heartbeater := { client.heartbeater with received_ack := true } }
      let client := { client with
        heartbeater := { client.heartbeater with interval := hello.heartbeat_interval } }
      let client := { client with heartbeater := { client.heartbeater with tick_ms := now } }
      let client := { client with heartbeater := { client.heartbeater with running := true } }
      some (ESP_OK, client)

/-- The test of line 272,
`heartbeater.running && discord_tick_ms() - heartbeater.tick_ms > heartbeater.interval`,
at tick `now`: the difference of the two unsigned 64-bit ticks wraps modulo
`2^64`, and the `int` interval is converted to the unsigned type. -/
def dcgw_heartbeat_expired (client : discord_client) (now : Nat) : Bool :=
  client.heartbeater.running
    && decide ((((now : Int) - (client.heartbeater.tick_ms : Int)) % 2 ^ 64)
        > client.heartbeater.interval % 2 ^ 64)

/-- The heartbeat check at tick `now`; both readings of `discord_tick_ms()` in
one call return `now`. -/
def dcgw_heartbeat_send_if_expired (H : gateway_header) (E : gateway_env) (client : discord_client)
    (now : Nat) : esp_err_t × discord_client :=
  if dcgw_heartbeat_expired client now then
    let client := { client with heartbeater := { client.heartbeater with tick_ms := now } }
    if ! client.heartbeater.received_ack then
      dcgw_close H client DISCORD_CLOSE_REASON_HEARTBEAT_ACK_NOT_RECEIVED
    else
      let client := { client with heartbeater := { client.heartbeater with received_ack := false } }
      let s := client.last_sequence_number
      dcgw_send E client
        (discord_model_gateway_payload H DISCORD_OP_HEARTBEAT (discord_gateway_payload_data_t.heartbeat s))
  else
    (ESP_OK, client)

def dcgw_identify (H : gateway_header) (E : gateway_env) (client : discord_client) :
    esp_err_t × discord_client :=
  dcgw_send E client
    (discord_model_gateway_payload H DISCORD_OP_IDENTIFY
      (discord_gateway_payload_data_t.identify
        { token := client.config.token
          intents := client.config.intents
          properties := { os := "freertos", browser := "esp-idf", device := "esp32" } }))

/-- The dispatch of lines 314-362; the payload is returned as well, since the
READY case empties its body slot. The READY case reads
`client->session->user->...` for the log line: with an absent body the call
faults (`none`). -/
def dcgw_dispatch (client : discord_client) (payload : discord_gateway_payload_t) :
    Option (esp_err_t × discord_client × discord_gateway_payload_t) :=
  if DISCORD_GATEWAY_EVENT_READY = payload.t then
    let client :=
      match client.session with
      | some session => { client with released := client.released ++ [released_t.session session] }
      | none => client
    let client := { client with session := as_session payload.d }
    let payload := { payload with d := none }
    let client := { client with state := DISCORD_CLIENT_STATE_CONNECTED }
    match client.session with
    | none => none
    | some _ =>
      let client := { client with emitted := client.emitted ++ [(DISCORD_EVENT_CONNECTED, none)] }
      some (ESP_OK, client, payload)
  else
    match payload.t with
    | DISCORD_GATEWAY_EVENT_MESSAGE_CREATE =>
      some (ESP_OK,
        { client with emitted := client.emitted ++ [(DISCORD_EVENT_MESSAGE_RECEIVED, payload.d)] },
        payload)
    | DISCORD_GATEWAY_EVENT_MESSAGE_UPDATE =>
      some (ESP_OK,
        { client with emitted := client.emitted ++ [(DISCORD_EVENT_MESSAGE_UPDATED, payload.d)] },
        payload)
    | DISCORD_GATEWAY_EVENT_MESSAGE_DELETE =>
      some (ESP_OK,
        { client with emitted := client.emitted ++ [(DISCORD_EVENT_MESSAGE_DELETED, payload.d)] },
        payload)
    | _ => some (ESP_OK, client, payload)

/-- The handling of a dequeued payload at tick `now` (lines 364-413). -/
def dcgw_handle_payload (H : gateway_header) (E : gateway_env) (client : discord_client)
    (payload : Option discord_gateway_payload_t) (now : Nat) : Option (esp_err_t × discord_client) :=
  match payload with
  | none => some (ESP_FAIL, client)
  | some payload =>
    if client.state = DISCORD_CLIENT_STATE_DISCONNECTING then
      let close_code := dcgw_close_opcode H client
      if close_code = H.DISCORD_CLOSEOP_NO_CODE then
        some (ESP_OK, client)
      else
        some (ESP_OK, { client with close_code := close_code })
    else
      match payload.op with
      | DISCORD_OP_HELLO =>
        match dcgw_heartbeat_start client (as_hello payload.d) now with
        | none => none
        | some (_, client) =>
          let client := { client with released := client.released ++ [released_t.payload payload] }
          let client := (dcgw_identify H E client).2
          some (ESP_OK, client)
      | DISCORD_OP_HEARTBEAT_ACK =>
        let client := { client with heartbeater := { client.heartbeater with received_ack := true } }
        let client := { client with released := client.released ++ [released_t.payload payload] }
        some (ESP_OK, client)
      | DISCORD_OP_DISPATCH =>
        match dcgw_dispatch client payload with
        | none => none
        | some (_, client, payload) =>
          some (ESP_OK, { client with released := client.released ++ [released_t.payload payload] })
      | _ =>
        some (ESP_OK, { client with released := client.released ++ [released_t.payload payload] })

/-! Definitions used by the statements and proofs -/

/-- The client as it stands when `dcgw_buffer_websocket_data` enters the "Buffering done." branch
for this fragment; `none` when the branch is not entered (payload too big, or message not yet
complete). -/
def dcgw_buffering_done_entry (client : discord_client) (data : esp_websocket_event_data_t) :
    Option discord_client :=
  match dcgw_buffer_websocket_data_store client data with
  | some (client, true) => some client
  | _ => none

/-- Feeding a list of fragment events to `dcgw_buffer_websocket_data`, in order, whatever each
call returns. The result is the final client and the clients at the entries of the "Buffering
done." branch, in order; `none` when a call faults. -/
def dcgw_feed (H : gateway_header) (E : gateway_env) :
    discord_client → List esp_websocket_event_data_t → Option (discord_client × List discord_client)
  | client, [] => some (client, [])
  | client, data :: rest =>
    match dcgw_buffer_websocket_data H E client data with
    | none => none
    | some (_, client') =>
      match dcgw_feed H E client' rest with
      | none => none
      | some (final, entries) => some (final, (dcgw_buffering_done_entry client data).toList ++ entries)

/-- The client with its buffer and `buffer_len` replaced: the two fields the store of a fragment
assigns. -/
def with_buffer (client : discord_client) (buffer : Int → Nat) (buffer_len : Int) : discord_client :=
  { client with buffer := buffer, buffer_len := buffer_len }

/-- The client after the first two statements of the "Buffering done." branch: the state change on
a close frame and the NUL terminator. -/
def done_prepare (c : discord_client) (d : esp_websocket_event_data_t) : discord_client :=
  let c :=
    if d.op_code = WS_TRANSPORT_OPCODES_CLOSE then
      { c with state := DISCORD_CLIENT_STATE_DISCONNECTING }
    else c
  { c with buffer := store_byte c.buffer c.buffer_len 0 }

/-- The assignment of line 124-126: the sequence of the payload is recorded unless it is the null
sentinel. -/
def track_sequence (H : gateway_header) (c : discord_client) (p : discord_gateway_payload_t) :
    discord_client :=
  if p.s ≠ H.DISCORD_NULL_SEQUENCE_NUMBER then { c with last_sequence_number := p.s } else c

/-- The call `discord_model_gateway_payload_free(payload)`. -/
def release_payload (c : discord_client) (p : discord_gateway_payload_t) : discord_client :=
  { c with released := c.released ++ [released_t.payload p] }

/-- An instance of the header constants, for the concrete evaluations: null sequence -1,
`DISCONNECTING` the enumerator after `CONNECTED`, close codes 1000-4999. -/
def example_header : gateway_header :=
  { DISCORD_NULL_SEQUENCE_NUMBER := -1
    DISCORD_CLIENT_STATE_DISCONNECTING := 4
    DISCORD_CLOSEOP_MIN := 1000
    DISCORD_CLOSEOP_MAX := 4999
    DISCORD_CLOSEOP_NO_CODE := -1 }

/-- Collaborators for the concrete evaluations: a decoder that rejects every input and a transport
that accepts every frame. -/
def example_env : gateway_env :=
  { deserialize := fun _ => none, send_text := fun _ => 0, client_start := ESP_OK }

/-- A client for the concrete evaluations: running, connected, no session, heartbeater stopped,
buffer of 1024 bytes, empty queue of capacity 2. -/
def example_client : discord_client :=
  { state := DISCORD_CLIENT_STATE_CONNECTED
    running := true
    config := { token := "token", intents := 512, buffer_size := 1024 }
    ws := { connected := true }
    heartbeater := { running := false, interval := 0, tick_ms := 0, received_ack := false }
    session := none
    last_sequence_number := -1
    close_reason := discord_close_reason_t.DISCORD_CLOSE_REASON_NOT_REQUESTED
    close_code := -1
    buffer := fun _ => 0
    buffer_len := 0
    queue := []
    queue_size := 2
    sent := []
    emitted := []
    released := [] }

/-- The envelope decoded when this fragment completes a message: the decoder applied to the
buffered bytes; `none` when the fragment does not complete a message or the bytes do not
decode. -/
def dcgw_completed_payload (E : gateway_env) (client : discord_client)
    (data : esp_websocket_event_data_t) : Option discord_gateway_payload_t :=
  match dcgw_buffering_done_entry client data with
  | none => none
  | some entry =>
    E.deserialize (buffer_span (store_byte entry.buffer entry.buffer_len 0) entry.buffer_len)

/-- Handling a list of dequeued payloads, each at its tick, in order; `none` when a call faults. -/
def dcgw_handle_payloads (H : gateway_header) (E : gateway_env) :
    discord_client → List (discord_gateway_payload_t × Nat) → Option discord_client
  | client, [] => some client
  | client, (payload, now) :: rest =>
    match dcgw_handle_payload H E client (some payload) now with
    | none => none
    | some (_, client') => dcgw_handle_payloads H E client' rest

/-- The example client in state `DISCONNECTING` with a running heartbeater (interval 10, last beat
at tick 0, acknowledgment satisfied). -/
def disconnecting_client : discord_client :=
  { example_client with
    state := DISCORD_CLIENT_STATE_DISCONNECTING
    heartbeater := { running := true, interval := 10, tick_ms := 0, received_ack := true } }

/-- A heartbeat-acknowledgment envelope. -/
def ack_payload : discord_gateway_payload_t :=
  { op := DISCORD_OP_HEARTBEAT_ACK, d := none, s := -1, t := DISCORD_GATEWAY_EVENT_OTHER 0 }

/-- A Hello envelope with heartbeat interval 500. -/
def hello_payload : discord_gateway_payload_t :=
  { op := DISCORD_OP_HELLO
    d := some (discord_gateway_payload_data_t.hello { heartbeat_interval := 500 })
    s := -1
    t := DISCORD_GATEWAY_EVENT_OTHER 0 }

/-- The example client with the session of user U1. -/
def connected_client : discord_client :=
  { example_client with
    session := some
      { session_id := "S1"
        user := { id := "U1", bot := true, username := none, discriminator := none } } }

/-- The connected example client with a running heartbeater (interval 10, last beat at tick 0,
acknowledgment satisfied). -/
def beating_client : discord_client :=
  { connected_client with
    heartbeater := { running := true, interval := 10, tick_ms := 0, received_ack := true } }

/-- A message-create dispatch with content "hi", sequence 42 and the given author id. -/
def message_payload (author_id : String) : discord_gateway_payload_t :=
  { op := DISCORD_OP_DISPATCH
    d := some (discord_gateway_payload_data_t.message
      { id := some "M1"
        content := some "hi"
        channel_id := some "C1"
        author := some { id := author_id, bot := false, username := none, discriminator := none } })
    s := 42
    t := DISCORD_GATEWAY_EVENT_MESSAGE_CREATE }

/-- Collaborators whose decoder yields the given envelope. -/
def constant_decoder (p : discord_gateway_payload_t) : gateway_env :=
  { example_env with deserialize := fun _ => some p }

/-- A complete two-byte text frame. -/
def text_frame : esp_websocket_event_data_t :=
  { op_code := WS_TRANSPORT_OPCODES_TEXT, data_ptr := [123, 125], data_len := 2, payload_len := 2,
    payload_offset := 0 }

/-- A fragment whose declared total length, 2000, exceeds the 1024 bytes of the example buffer. -/
def oversized_fragment : esp_websocket_event_data_t :=
  { op_code := WS_TRANSPORT_OPCODES_TEXT, data_ptr := [123], data_len := 1, payload_len := 2000,
    payload_offset := 0 }

/-- One operation of the gateway on the client: a transport event given to
`dcgw_websocket_event_handler`, `dcgw_start`, `dcgw_close` with a reason,
`dcgw_heartbeat_send_if_expired` at a tick, or `dcgw_handle_payload` on an envelope at a tick. -/
inductive gateway_operation where
  | ws_event (event_id : esp_websocket_event_id_t) (data : esp_websocket_event_data_t)
  | start
  | close (reason : discord_close_reason_t)
  | heartbeat (now : Nat)
  | handle (payload : discord_gateway_payload_t) (now : Nat)

/-- The client after one gateway operation; `none` when the call faults. -/
def dcgw_apply (H : gateway_header) (E : gateway_env) (client : discord_client) :
    gateway_operation → Option discord_client
  | gateway_operation.ws_event event_id data => dcgw_websocket_event_handler H E client event_id data
  | gateway_operation.start => some (dcgw_start H E client).2
  | gateway_operation.close reason => some (dcgw_close H client reason).2
  | gateway_operation.heartbeat now => some (dcgw_heartbeat_send_if_expired H E client now).2
  | gateway_operation.handle payload now =>
    (dcgw_handle_payload H E client (some payload) now).map Prod.snd

/-- The client after a sequence of gateway operations, in order; `none` when a call faults. -/
def dcgw_run (H : gateway_header) (E : gateway_env) :
    discord_client → List gateway_operation → Option discord_client
  | client, [] => some client
  | client, op :: rest =>
    match dcgw_apply H E client op with
    | none => none
    | some client' => dcgw_run H E client' rest

/-- A close frame: two bytes of status code (4004) and nothing else. -/
def close_frame : esp_websocket_event_data_t :=
  { op_code := WS_TRANSPORT_OPCODES_CLOSE, data_ptr := [15, 164], data_len := 2, payload_len := 2,
    payload_offset := 0 }

/-- Any event record that is not a PONG frame, for the transport events that carry no data. -/
def no_data : esp_websocket_event_data_t :=
  { op_code := WS_TRANSPORT_OPCODES_TEXT, data_ptr := [], data_len := 0, payload_len := 0,
    payload_offset := 0 }

/-- The example client in state `CONNECTING`. -/
def connecting_client : discord_client :=
  { example_client with state := DISCORD_CLIENT_STATE_CONNECTING }

/-- A READY dispatch whose body is the session of user U2. -/
def ready_payload : discord_gateway_payload_t :=
  { op := DISCORD_OP_DISPATCH
    d := some (discord_gateway_payload_data_t.session
      { session_id := "S2"
        user := { id := "U2", bot := true, username := none, discriminator := none } })
    s := 1
    t := DISCORD_GATEWAY_EVENT_READY }

/-- The example client with a buffer of exactly 1024 bytes followed by a byte of value 7 at
index 1024, the first index past the buffer. -/
def guarded_client : discord_client :=
  { connected_client with buffer := fun i => if i = 1024 then 7 else 0 }

/-- A message of exactly 1024 bytes delivered as one text frame. -/
def full_frame : esp_websocket_event_data_t :=
  { op_code := WS_TRANSPORT_OPCODES_TEXT, data_ptr := List.replicate 1024 65, data_len := 1024,
    payload_len := 1024, payload_offset := 0 }

/-! The engine of `discord.c` -/

def ESP_ERR_INVALID_ARG : esp_err_t := 258

def DISCORD_MIN_BUFFER_SIZE : Int := 1024

namespace Legacy

/-- The close reasons of `discord.c` (lines 31-35). -/
inductive discord_close_reason_t where
  | DISCORD_CLOSE_REASON_NOT_REQUESTED
  | DISCORD_CLOSE_REASON_RECONNECT
  | DISCORD_CLOSE_REASON_LOGOUT
  deriving DecidableEq

/-- The client states of `discord.c` (lines 37-44). -/
inductive discord_client_state_t where
  | DISCORD_CLIENT_STATE_ERROR
  | DISCORD_CLIENT_STATE_DISCONNECTED
  | DISCORD_CLIENT_STATE_UNKNOWN
  | DISCORD_CLIENT_STATE_INIT
  | DISCORD_CLIENT_STATE_CONNECTING
  | DISCORD_CLIENT_STATE_CONNECTED
  deriving DecidableEq

/-- Numeric value of a state enumerator of `discord.c`. -/
def discord_client_state_t.val : discord_client_state_t → Int
  | .DISCORD_CLIENT_STATE_ERROR => -2
  | .DISCORD_CLIENT_STATE_DISCONNECTED => -1
  | .DISCORD_CLIENT_STATE_UNKNOWN => 0
  | .DISCORD_CLIENT_STATE_INIT => 1
  | .DISCORD_CLIENT_STATE_CONNECTING => 2
  | .DISCORD_CLIENT_STATE_CONNECTED => 3

/-- The client of `discord.c` (lines 57-72). `ws` is `none` once the transport handle is
destroyed; `event_handle` tells whether the event loop handle is set; `buffer_ready` is the bit
`DISCORD_CLIENT_STATUS_BIT_BUFFER_READY` of `status_bits`. The task handle is never read, and
the recursive lock, taken with `portMAX_DELAY`, is always acquired in a sequential run; both are
left out. `sent` and `released` record calls, as for the gateway client. -/
structure discord_client where
  state : discord_client_state_t
  event_handle : Bool
  config : EspDiscord.discord_client_config_t
  running : Bool
  ws : Option esp_websocket_client
  heartbeater : discord_heartbeater_t
  session : Option discord_gateway_session_t
  last_sequence_number : Int
  close_reason : discord_close_reason_t
  buffer : Int → Nat
  buffer_len : Int
  buffer_ready : Bool
  sent : List discord_gateway_payload_t
  released : List released_t

/-- The release of a session, `discord_model_gateway_session_free`. A session is released and
the release recorded. The function is not among the sources, so what it does when it is given
`NULL` is the parameter `null_safe`: the call returns having done nothing, or it dereferences
`NULL` and faults (`none`), as the release that is among the sources does
(`discord_model_gateway_identification_free`, `discord_models.c` lines 30-34, reads `id->user`
without a check). -/
def discord_model_gateway_session_free (null_safe : Bool) (client : discord_client)
    (session : Option discord_gateway_session_t) : Option discord_client :=
  match session with
  | some s => some { client with released := client.released ++ [released_t.session s] }
  | none => if null_safe then some client else none

def gw_heartbeat_stop (client : discord_client) : esp_err_t × discord_client :=
  let client := { client with heartbeater := { client.heartbeater with running := false } }
  let client := { client with heartbeater := { client.heartbeater with interval := 0 } }
  let client := { client with heartbeater := { client.heartbeater with tick_ms := 0 } }
  let client := { client with heartbeater := { client.heartbeater with received_ack := false } }
  (ESP_OK, client)

def gw_reset (H : gateway_header) (client : discord_client) : esp_err_t × discord_client :=
  let client := (gw_heartbeat_stop client).2
  let client := { client with last_sequence_number := H.DISCORD_NULL_SEQUENCE_NUMBER }
  let client := { client with
    close_reason := discord_close_reason_t.DISCORD_CLOSE_REASON_NOT_REQUESTED }
  let client := { client with buffer_ready := false }
  let client := { client with buffer_len := 0 }
  (ESP_OK, client)

def gw_send (client : discord_client) (payload : discord_gateway_payload_t) :
    esp_err_t × discord_client :=
  (ESP_OK, { client with sent := client.sent ++ [payload] })

def gw_buffer_websocket_data (client : discord_client) (data : esp_websocket_event_data_t) :
    esp_err_t × discord_client :=
  if data.payload_len > client.config.buffer_size then
    (ESP_FAIL, client)
  else
    let client := { client with
      buffer := memcpy client.buffer data.payload_offset data.data_ptr data.data_len }
    let client := { client with buffer_len := data.data_len + data.payload_offset }
    if client.buffer_len ≥ data.payload_len then
      (ESP_OK, { client with buffer_ready := true })
    else
      (ESP_OK, client)

def gw_websocket_event_handler (client : discord_client) (event_id : esp_websocket_event_id_t)
    (data : esp_websocket_event_data_t) : discord_client :=
  if data.op_code = WS_TRANSPORT_OPCODES_PONG then
    client
  else
    match event_id with
    | WEBSOCKET_EVENT_CONNECTED => { client with state := .DISCORD_CLIENT_STATE_CONNECTING }
    | WEBSOCKET_EVENT_DATA =>
      if data.op_code = WS_TRANSPORT_OPCODES_TEXT then (gw_buffer_websocket_data client data).2
      else client
    | WEBSOCKET_EVENT_ERROR => { client with state := .DISCORD_CLIENT_STATE_ERROR }
    | WEBSOCKET_EVENT_DISCONNECTED => { client with state := .DISCORD_CLIENT_STATE_DISCONNECTED }
    | WEBSOCKET_EVENT_CLOSED => { client with state := .DISCORD_CLIENT_STATE_DISCONNECTED }
    | WEBSOCKET_EVENT_OTHER _ => client

def gw_start (E : gateway_env) (client : discord_client) : esp_err_t × discord_client :=
  let client := { client with state := .DISCORD_CLIENT_STATE_INIT }
  (E.client_start, client)

/-- The close of lines 214-230. `esp_websocket_client_is_connected` is false for a `NULL`
handle. -/
def gw_close (H : gateway_header) (client : discord_client) (reason : discord_close_reason_t) :
    esp_err_t × discord_client :=
  let client := { client with close_reason := reason }
  let client :=
    match client.ws with
    | some ws =>
      if ws.connected then { client with ws := some (esp_websocket_client_close ws) } else client
    | none => client
  let client := (gw_reset H client).2
  let client := { client with state := .DISCORD_CLIENT_STATE_INIT }
  (ESP_OK, client)

/-- The reconnect of lines 232-239; `ESP_ERROR_CHECK` aborts (`none`) when the start fails. -/
def gw_reconnect (H : gateway_header) (E : gateway_env) (client : discord_client) :
    Option (esp_err_t × discord_client) :=
  let client := (gw_close H client discord_close_reason_t.DISCORD_CLOSE_REASON_RECONNECT).2
  let (err, client) := gw_start E client
  if err = ESP_OK then some (ESP_OK, client) else none

def dc_config_copy (config : EspDiscord.discord_client_config_t) :
    EspDiscord.discord_client_config_t :=
  { token := config.token
    intents := config.intents
    buffer_size :=
      if config.buffer_size > DISCORD_MIN_BUFFER_SIZE then config.buffer_size
      else DISCORD_MIN_BUFFER_SIZE }

/-- The heartbeat check of lines 566-587 at tick `now` (both readings of `dc_tick_ms()`). -/
def gw_heartbeat_send_if_expired (H : gateway_header) (E : gateway_env) (client : discord_client)
    (now : Nat) : Option (esp_err_t × discord_client) :=
  if client.heartbeater.running
      && decide ((((now : Int) - (client.heartbeater.tick_ms : Int)) % 2 ^ 64)
          > client.heartbeater.interval % 2 ^ 64) then
    let client := { client with heartbeater := { client.heartbeater with tick_ms := now } }
    if ! client.heartbeater.received_ack then
      gw_reconnect H E client
    else
      let client := { client with heartbeater := { client.heartbeater with received_ack := false } }
      let s := client.last_sequence_number
      some (gw_send client
        (discord_model_gateway_payload H DISCORD_OP_HEARTBEAT (discord_gateway_payload_data_t.heartbeat s)))
  else
    some (ESP_OK, client)

/-- The logout of lines 519-543; the client pointer may be `NULL`. Destroying the transport
and deleting the event loop leave the handles unset. The session pointer is handed to
`discord_model_gateway_session_free` without a check (line 537), unlike in `gw_dispatch` (line
308): without a session the call faults (`none`) unless that release is safe on `NULL`. -/
def discord_logout (H : gateway_header) (null_safe : Bool) (client : Option discord_client) :
    Option (esp_err_t × Option discord_client) :=
  match client with
  | none => some (ESP_ERR_INVALID_ARG, none)
  | some client =>
    let client := { client with running := false }
    let client := (gw_close H client discord_close_reason_t.DISCORD_CLOSE_REASON_LOGOUT).2
    let client := { client with ws := none }
    let client := if client.event_handle then { client with event_handle := false } else client
    match discord_model_gateway_session_free null_safe client client.session with
    | none => none
    | some client =>
      let client := { client with session := none }
      let client := { client with state := .DISCORD_CLIENT_STATE_UNKNOWN }
      some (ESP_OK, some client)

/-- The switch of one iteration of `dc_task` (lines 402-440), run under the lock at tick `now`;
`none` when a call aborts or faults. -/
def dc_task_switch (H : gateway_header) (E : gateway_env) (null_safe : Bool)
    (client : discord_client) (now : Nat) : Option discord_client :=
  match client.state with
  | .DISCORD_CLIENT_STATE_UNKNOWN => some client
  | .DISCORD_CLIENT_STATE_INIT => some client
  | .DISCORD_CLIENT_STATE_CONNECTING => some client
  | .DISCORD_CLIENT_STATE_CONNECTED => (gw_heartbeat_send_if_expired H E client now).map Prod.snd
  | .DISCORD_CLIENT_STATE_DISCONNECTED =>
    if client.close_reason = discord_close_reason_t.DISCORD_CLOSE_REASON_NOT_REQUESTED then
      (discord_logout H null_safe (some client)).bind Prod.snd
    else
      let client := (gw_reset H client).2
      some { client with state := .DISCORD_CLIENT_STATE_INIT }
  | .DISCORD_CLIENT_STATE_ERROR => (discord_logout H null_safe (some client)).bind Prod.snd

/-- A client of `discord.c` for the concrete evaluations: logged in and connected, with the
session of user U1 and a running heartbeater. -/
def example_client : discord_client :=
  { state := .DISCORD_CLIENT_STATE_CONNECTED
    event_handle := true
    config := { token := "token", intents := 512, buffer_size := 1024 }
    running := true
    ws := some { connected := true }
    heartbeater := { running := true, interval := 10, tick_ms := 0, received_ack := false }
    session := some
      { session_id := "S1"
        user := { id := "U1", bot := true, username := none, discriminator := none } }
    last_sequence_number := 42
    close_reason := .DISCORD_CLOSE_REASON_NOT_REQUESTED
    buffer := fun _ => 0
    buffer_len := 17
    buffer_ready := false
    sent := []
    released := [] }

end Legacy

/-- A client in state `DISCONNECTING` whose buffer holds the two bytes of close code 4004. -/
def closing_client : discord_client :=
  { disconnecting_client with
    buffer := fun i => if i = 0 then 15 else if i = 1 then 164 else 0
    buffer_len := 2 }

/-! Runs of gateway operations and the program order of one call -/

/-- The example header with `DISCONNECTING` numbered below every other state instead. -/
def low_header : gateway_header :=
  { example_header with DISCORD_CLIENT_STATE_DISCONNECTING := -3 }

/-- The clients after each operation of a sequence of gateway operations, in order, up to the
first call that faults. -/
def dcgw_run_states (H : gateway_header) (E : gateway_env) :
    discord_client → List gateway_operation → List discord_client
  | _, [] => []
  | client, op :: rest =>
    match dcgw_apply H E client op with
    | none => []
    | some client' => client' :: dcgw_run_states H E client' rest

/-- Whether the operation is `dcgw_handle_payload` on a HEARTBEAT_ACK envelope, called while the
client is in a state other than `DISCONNECTING`. -/
def dcgw_takes_ack (client : discord_client) : gateway_operation → Bool
  | gateway_operation.handle payload _ =>
    decide (payload.op = DISCORD_OP_HEARTBEAT_ACK)
      && decide (client.state ≠ DISCORD_CLIENT_STATE_DISCONNECTING)
  | _ => false

/-- Whether, in the course of a sequence of gateway operations, `dcgw_handle_payload` is called on
a HEARTBEAT_ACK envelope while the client is in a state other than `DISCONNECTING`. -/
def dcgw_ack_taken (H : gateway_header) (E : gateway_env) :
    discord_client → List gateway_operation → Bool
  | _, [] => false
  | client, op :: rest =>
    dcgw_takes_ack client op
      || match dcgw_apply H E client op with
         | none => false
         | some client' => dcgw_ack_taken H E client' rest

/-- Whether the operation is `dcgw_handle_payload` on a Hello envelope. -/
def dcgw_handles_hello : gateway_operation → Bool
  | gateway_operation.handle payload _ => decide (payload.op = DISCORD_OP_HELLO)
  | _ => false

/-- The clients of one call of `dcgw_buffer_websocket_data`, in program order: the client on
entry and the client after each assignment or call that the execution performs: the copy (line
105), the assignment of `buffer_len` (107), the state change on a close frame (110-112), the NUL
terminator (115), the sequence update (124-126), then `xQueueSend` (130) and
`discord_model_gateway_payload_free` (129, 132) where they are called. The list ends where the
function returns or faults. -/
def dcgw_buffer_websocket_data_trace (H : gateway_header) (E : gateway_env)
    (client : discord_client) (data : esp_websocket_event_data_t) : List discord_client :=
  if data.payload_len > client.config.buffer_size then
    [client]
  else
    let c1 := { client with
      buffer := memcpy client.buffer data.payload_offset data.data_ptr data.data_len }
    let c2 := { c1 with buffer_len := data.data_len + data.payload_offset }
    if c2.buffer_len ≥ data.payload_len then
      let c3 :=
        if data.op_code = WS_TRANSPORT_OPCODES_CLOSE then
          { c2 with state := DISCORD_CLIENT_STATE_DISCONNECTING }
        else c2
      let c4 := { c3 with buffer := store_byte c3.buffer c3.buffer_len 0 }
      match E.deserialize (buffer_span c4.buffer c4.buffer_len) with
      | none => [client, c1, c2, c3, c4]
      | some payload =>
        let c5 :=
          if payload.s ≠ H.DISCORD_NULL_SEQUENCE_NUMBER then
            { c4 with last_sequence_number := payload.s }
          else c4
        match dcgw_whether_payload_should_go_into_queue H c5 (some payload) with
        | none => [client, c1, c2, c3, c4, c5]
        | some false =>
          [client, c1, c2, c3, c4, c5,
            { c5 with released := c5.released ++ [released_t.payload payload] }]
        | some true =>
          match xQueueSend c5 payload with
          | (true, c6) => [client, c1, c2, c3, c4, c5, c6]
          | (false, c6) =>
            [client, c1, c2, c3, c4, c5, c6,
              { c6 with released := c6.released ++ [released_t.payload payload] }]
    else
      [client, c1, c2]

/-! Theorems -/

theorem store_eq (c : discord_client) (d : esp_websocket_event_data_t)
    (h : d.payload_len ≤ c.config.buffer_size) :
    dcgw_buffer_websocket_data_store c d
      = some (with_buffer c (memcpy c.buffer d.payload_offset d.data_ptr d.data_len)
          (d.data_len + d.payload_offset), decide (d.data_len + d.payload_offset ≥ d.payload_len)) := by
  unfold dcgw_buffer_websocket_data_store
  rw [if_neg (by omega)]
  rfl

theorem step_incomplete (H : gateway_header) (E : gateway_env) (c : discord_client)
    (d : esp_websocket_event_data_t) (h : d.payload_len ≤ c.config.buffer_size)
    (h2 : d.data_len + d.payload_offset < d.payload_len) :
    dcgw_buffer_websocket_data H E c d
      = some (ESP_OK, with_buffer c (memcpy c.buffer d.payload_offset d.data_ptr d.data_len)
          (d.data_len + d.payload_offset))
    ∧ dcgw_buffering_done_entry c d = none := by
  have hd : decide (d.data_len + d.payload_offset ≥ d.payload_len) = false := by
    simp; omega
  constructor
  · unfold dcgw_buffer_websocket_data
    rw [store_eq c d h, hd]
  · unfold dcgw_buffering_done_entry
    rw [store_eq c d h, hd]

theorem step_complete (H : gateway_header) (E : gateway_env) (c : discord_client)
    (d : esp_websocket_event_data_t) (h : d.payload_len ≤ c.config.buffer_size)
    (h2 : d.payload_len ≤ d.data_len + d.payload_offset) :
    dcgw_buffer_websocket_data H E c d
      = dcgw_buffer_websocket_data_done H E
          (with_buffer c (memcpy c.buffer d.payload_offset d.data_ptr d.data_len)
            (d.data_len + d.payload_offset)) d
    ∧ dcgw_buffering_done_entry c d
      = some (with_buffer c (memcpy c.buffer d.payload_offset d.data_ptr d.data_len)
          (d.data_len + d.payload_offset)) := by
  have hd : decide (d.data_len + d.payload_offset ≥ d.payload_len) = true := by
    simp; omega
  constructor
  · unfold dcgw_buffer_websocket_data
    rw [store_eq c d h, hd]
  · unfold dcgw_buffering_done_entry
    rw [store_eq c d h, hd]

theorem done_eq (H : gateway_header) (E : gateway_env) (c : discord_client)
    (d : esp_websocket_event_data_t) :
    dcgw_buffer_websocket_data_done H E c d
      = match E.deserialize (buffer_span (done_prepare c d).buffer (done_prepare c d).buffer_len) with
        | none => some (ESP_FAIL, done_prepare c d)
        | some p =>
          match dcgw_whether_payload_should_go_into_queue H (track_sequence H (done_prepare c d) p)
              (some p) with
          | none => none
          | some false => some (ESP_OK, release_payload (track_sequence H (done_prepare c d) p) p)
          | some true =>
            if (track_sequence H (done_prepare c d) p).queue.length
                < (track_sequence H (done_prepare c d) p).queue_size then
              some (ESP_OK, { track_sequence H (done_prepare c d) p with
                queue := (track_sequence H (done_prepare c d) p).queue ++ [p] })
            else
              some (ESP_OK, release_payload (track_sequence H (done_prepare c d) p) p) := by
  unfold dcgw_buffer_websocket_data_done
  show (match E.deserialize (buffer_span (done_prepare c d).buffer (done_prepare c d).buffer_len) with
    | none => some (ESP_FAIL, done_prepare c d)
    | some p =>
      match dcgw_whether_payload_should_go_into_queue H (track_sequence H (done_prepare c d) p)
          (some p) with
      | none => none
      | some false => some (ESP_OK, release_payload (track_sequence H (done_prepare c d) p) p)
      | some true =>
        match xQueueSend (track_sequence H (done_prepare c d) p) p with
        | (true, client) => some (ESP_OK, client)
        | (false, client) => some (ESP_OK, release_payload client p)) = _
  cases E.deserialize (buffer_span (done_prepare c d).buffer (done_prepare c d).buffer_len) with
  | none => rfl
  | some p =>
    simp only []
    cases dcgw_whether_payload_should_go_into_queue H (track_sequence H (done_prepare c d) p) (some p) with
    | none => rfl
    | some b =>
      cases b with
      | false => rfl
      | true =>
        by_cases hq : (track_sequence H (done_prepare c d) p).queue.length
            < (track_sequence H (done_prepare c d) p).queue_size
        · simp only [xQueueSend, if_pos hq]
        · simp only [xQueueSend, if_neg hq]

theorem done_prepare_fields (c : discord_client) (d : esp_websocket_event_data_t) :
    (done_prepare c d).config = c.config ∧ (done_prepare c d).session = c.session
    ∧ (done_prepare c d).buffer_len = c.buffer_len
    ∧ (done_prepare c d).last_sequence_number = c.last_sequence_number
    ∧ (done_prepare c d).queue = c.queue ∧ (done_prepare c d).queue_size = c.queue_size
    ∧ (done_prepare c d).state
        = (if d.op_code = WS_TRANSPORT_OPCODES_CLOSE then DISCORD_CLIENT_STATE_DISCONNECTING
            else c.state)
    ∧ (done_prepare c d).buffer = store_byte c.buffer c.buffer_len 0 := by
  unfold done_prepare
  by_cases h : d.op_code = WS_TRANSPORT_OPCODES_CLOSE
  · simp [h]
  · simp [h]

theorem track_sequence_fields (H : gateway_header) (c : discord_client)
    (p : discord_gateway_payload_t) :
    (track_sequence H c p).config = c.config ∧ (track_sequence H c p).session = c.session
    ∧ (track_sequence H c p).buffer_len = c.buffer_len
    ∧ (track_sequence H c p).queue = c.queue ∧ (track_sequence H c p).queue_size = c.queue_size
    ∧ (track_sequence H c p).state = c.state
    ∧ (track_sequence H c p).last_sequence_number
        = (if p.s ≠ H.DISCORD_NULL_SEQUENCE_NUMBER then p.s else c.last_sequence_number) := by
  unfold track_sequence
  by_cases h : p.s ≠ H.DISCORD_NULL_SEQUENCE_NUMBER
  · simp [h]
  · simp [h]

theorem filter_congr (H : gateway_header) (c c' : discord_client)
    (p : Option discord_gateway_payload_t) (h1 : c.state = c'.state) (h2 : c.session = c'.session) :
    dcgw_whether_payload_should_go_into_queue H c p
      = dcgw_whether_payload_should_go_into_queue H c' p := by
  unfold dcgw_whether_payload_should_go_into_queue
  rw [h1, h2]

theorem filter_some_of_session (H : gateway_header) (c : discord_client)
    (p : Option discord_gateway_payload_t) (h : c.session ≠ none) :
    ∃ b, dcgw_whether_payload_should_go_into_queue H c p = some b := by
  unfold dcgw_whether_payload_should_go_into_queue
  cases hs : c.session with
  | none => exact absurd hs h
  | some s =>
    split
    · exact ⟨_, rfl⟩
    · split
      · split
        · exact ⟨_, rfl⟩
        · split
          · split
            · exact ⟨_, rfl⟩
            · split
              · exact ⟨_, rfl⟩
              · split
                · exact ⟨_, rfl⟩
                · simp only []
                  split <;> exact ⟨_, rfl⟩
          · exact ⟨_, rfl⟩
      · exact ⟨_, rfl⟩

theorem done_frame (H : gateway_header) (E : gateway_env) (c : discord_client)
    (d : esp_websocket_event_data_t) (r : esp_err_t × discord_client)
    (h : dcgw_buffer_websocket_data_done H E c d = some r) :
    r.2.config = c.config ∧ r.2.session = c.session ∧ r.2.buffer_len = c.buffer_len := by
  rw [done_eq] at h
  have hp := done_prepare_fields c d
  revert h
  split
  · intro h; cases h; exact ⟨hp.1, hp.2.1, hp.2.2.1⟩
  · rename_i p _
    have ht := track_sequence_fields H (done_prepare c d) p
    split
    · intro h; cases h
    · intro h; cases h
      exact ⟨ht.1.trans hp.1, ht.2.1.trans hp.2.1, ht.2.2.1.trans hp.2.2.1⟩
    · split <;> intro h <;> cases h <;>
        exact ⟨ht.1.trans hp.1, ht.2.1.trans hp.2.1, ht.2.2.1.trans hp.2.2.1⟩

theorem done_returns (H : gateway_header) (E : gateway_env) (c : discord_client)
    (d : esp_websocket_event_data_t) (h : c.session ≠ none) :
    ∃ r, dcgw_buffer_websocket_data_done H E c d = some r := by
  rw [done_eq]
  split
  · exact ⟨_, rfl⟩
  · rename_i p _
    have hs : (track_sequence H (done_prepare c d) p).session ≠ none := by
      rw [(track_sequence_fields H (done_prepare c d) p).2.1, (done_prepare_fields c d).2.1]
      exact h
    obtain ⟨b, hb⟩ := filter_some_of_session H _ (some p) hs
    rw [hb]
    cases b
    · exact ⟨_, rfl⟩
    · simp only []
      split <;> exact ⟨_, rfl⟩

theorem step_fail (H : gateway_header) (E : gateway_env) (c : discord_client)
    (d : esp_websocket_event_data_t) (h : d.payload_len > c.config.buffer_size) :
    dcgw_buffer_websocket_data H E c d = some (ESP_FAIL, c)
    ∧ dcgw_buffering_done_entry c d = none := by
  unfold dcgw_buffer_websocket_data dcgw_buffering_done_entry dcgw_buffer_websocket_data_store
  rw [if_pos h]
  exact ⟨rfl, rfl⟩

/-- Claim C2 (overflow rejection). A fragment whose declared total length exceeds
`config.buffer_size` makes `dcgw_buffer_websocket_data` return `ESP_FAIL` with the client
unchanged and without entering the "Buffering done." branch; feeding any events after it gives
exactly what feeding them alone gives. -/
theorem overflow_rejection (H : gateway_header) (E : gateway_env) (c : discord_client)
    (d : esp_websocket_event_data_t) (h : d.payload_len > c.config.buffer_size) :
    dcgw_buffer_websocket_data H E c d = some (ESP_FAIL, c)
    ∧ dcgw_buffering_done_entry c d = none
    ∧ ∀ evs, dcgw_feed H E c (d :: evs) = dcgw_feed H E c evs := by
  refine ⟨(step_fail H E c d h).1, (step_fail H E c d h).2, ?_⟩
  intro evs
  simp only [dcgw_feed, (step_fail H E c d h).1, (step_fail H E c d h).2]
  cases dcgw_feed H E c evs with
  | none => rfl
  | some r => rfl

theorem step_frame (H : gateway_header) (E : gateway_env) (c : discord_client)
    (d : esp_websocket_event_data_t) (r : esp_err_t × discord_client)
    (h : dcgw_buffer_websocket_data H E c d = some r) :
    r.2.config = c.config ∧ r.2.session = c.session
    ∧ (r.2.buffer_len = c.buffer_len ∧ d.payload_len > c.config.buffer_size
        ∨ r.2.buffer_len = d.data_len + d.payload_offset ∧ d.payload_len ≤ c.config.buffer_size) := by
  by_cases hbig : d.payload_len > c.config.buffer_size
  · rw [(step_fail H E c d hbig).1] at h
    cases h
    exact ⟨rfl, rfl, Or.inl ⟨rfl, hbig⟩⟩
  · have hcap : d.payload_len ≤ c.config.buffer_size := by omega
    by_cases hdone : d.payload_len ≤ d.data_len + d.payload_offset
    · rw [(step_complete H E c d hcap hdone).1] at h
      obtain ⟨h1, h2, h3⟩ := done_frame H E _ d r h
      exact ⟨h1, h2, Or.inr ⟨h3, hcap⟩⟩
    · rw [(step_incomplete H E c d hcap (by omega)).1] at h
      cases h
      exact ⟨rfl, rfl, Or.inr ⟨rfl, hcap⟩⟩

theorem step_returns (H : gateway_header) (E : gateway_env) (c : discord_client)
    (d : esp_websocket_event_data_t) (h : c.session ≠ none) :
    ∃ r, dcgw_buffer_websocket_data H E c d = some r := by
  by_cases hbig : d.payload_len > c.config.buffer_size
  · exact ⟨_, (step_fail H E c d hbig).1⟩
  · have hcap : d.payload_len ≤ c.config.buffer_size := by omega
    by_cases hdone : d.payload_len ≤ d.data_len + d.payload_offset
    · rw [(step_complete H E c d hcap hdone).1]
      exact done_returns H E _ d h
    · exact ⟨_, (step_incomplete H E c d hcap (by omega)).1⟩

/-- The filter on a message-create or message-update dispatch, client connected, session present. -/
theorem filter_message (H : gateway_header) (c : discord_client) (sess : discord_gateway_session_t)
    (p : discord_gateway_payload_t) (m : Option discord_message_t)
    (hstate : c.state = DISCORD_CLIENT_STATE_CONNECTED) (hsess : c.session = some sess)
    (hop : p.op = DISCORD_OP_DISPATCH)
    (ht : p.t = DISCORD_GATEWAY_EVENT_MESSAGE_CREATE ∨ p.t = DISCORD_GATEWAY_EVENT_MESSAGE_UPDATE)
    (hd : p.d = m.map discord_gateway_payload_data_t.message) :
    ∃ b, dcgw_whether_payload_should_go_into_queue H c (some p) = some b
      ∧ (b = false ↔ (m = none ∨ m.bind (fun msg => msg.content) = none
          ∨ m.bind (fun msg => msg.author) = none
          ∨ (m.bind (fun msg => msg.author)).map (fun a => a.id) = some sess.user.id)) := by
  have hnr : p.t ≠ DISCORD_GATEWAY_EVENT_READY := by
    rcases ht with h | h <;> rw [h] <;> decide
  unfold dcgw_whether_payload_should_go_into_queue
  simp only [hop, if_true, hstate, hsess, hd, lt_irrefl, false_and, if_false, ht]
  cases m with
  | none => exact ⟨false, rfl, by simp⟩
  | some msg =>
    simp only [Option.map_some', as_message, Option.bind_some]
    cases hc : msg.content with
    | none => exact ⟨false, rfl, by simp [hc]⟩
    | some content =>
      cases ha : msg.author with
      | none => exact ⟨false, rfl, by simp [hc, ha]⟩
      | some a =>
        simp only [discord_streq]
        by_cases hid : a.id = sess.user.id
        · exact ⟨false, by simp [hid], by simp [hc, ha, hid]⟩
        · exact ⟨true, by simp [hid], by simp [hc, ha, hid]⟩

theorem completed_payload_eq (E : gateway_env) (c : discord_client)
    (d : esp_websocket_event_data_t) (p : discord_gateway_payload_t)
    (h : dcgw_completed_payload E c d = some p) :
    ∃ entry, dcgw_buffering_done_entry c d = some entry
      ∧ dcgw_buffer_websocket_data_store c d = some (entry, true)
      ∧ E.deserialize (buffer_span (done_prepare entry d).buffer (done_prepare entry d).buffer_len)
          = some p := by
  unfold dcgw_completed_payload at h
  cases he : dcgw_buffering_done_entry c d with
  | none => simp [he] at h
  | some entry =>
    simp only [he] at h
    refine ⟨entry, rfl, ?_, ?_⟩
    · unfold dcgw_buffering_done_entry at he
      revert he
      split
      · intro he; cases he; assumption
      · intro he; cases he
    · rw [(done_prepare_fields entry d).2.2.2.2.2.2.2, (done_prepare_fields entry d).2.2.1]
      exact h

theorem store_some (c : discord_client) (d : esp_websocket_event_data_t) (entry : discord_client)
    (flag : Bool) (h : dcgw_buffer_websocket_data_store c d = some (entry, flag)) :
    d.payload_len ≤ c.config.buffer_size
    ∧ entry = with_buffer c (memcpy c.buffer d.payload_offset d.data_ptr d.data_len)
        (d.data_len + d.payload_offset) := by
  by_cases hbig : d.payload_len > c.config.buffer_size
  · unfold dcgw_buffer_websocket_data_store at h
    rw [if_pos hbig] at h
    cases h
  · have hcap : d.payload_len ≤ c.config.buffer_size := by omega
    rw [store_eq c d hcap] at h
    simp only [Option.some.injEq, Prod.mk.injEq] at h
    exact ⟨hcap, h.1.symm⟩

theorem step_done (H : gateway_header) (E : gateway_env) (c : discord_client)
    (d : esp_websocket_event_data_t) (p : discord_gateway_payload_t) (b : Bool)
    (hp : dcgw_completed_payload E c d = some p)
    (hb : dcgw_whether_payload_should_go_into_queue H
      { c with state := (if d.op_code = WS_TRANSPORT_OPCODES_CLOSE then
          DISCORD_CLIENT_STATE_DISCONNECTING else c.state) } (some p) = some b) :
    ∃ c', dcgw_buffer_websocket_data H E c d = some (ESP_OK, c')
      ∧ c'.last_sequence_number
          = (if p.s ≠ H.DISCORD_NULL_SEQUENCE_NUMBER then p.s else c.last_sequence_number)
      ∧ c'.queue = (if b = true ∧ c.queue.length < c.queue_size then c.queue ++ [p] else c.queue)
      ∧ c'.released = (if b = true ∧ c.queue.length < c.queue_size then c.released
          else c.released ++ [released_t.payload p]) := by
  obtain ⟨entry, _, hstore, hdec⟩ := completed_payload_eq E c d p hp
  obtain ⟨_, hentry⟩ := store_some c d entry true hstore
  have hf : dcgw_buffer_websocket_data H E c d = dcgw_buffer_websocket_data_done H E entry d := by
    unfold dcgw_buffer_websocket_data
    rw [hstore]
  have hpf := done_prepare_fields entry d
  have htf := track_sequence_fields H (done_prepare entry d) p
  have hfil : dcgw_whether_payload_should_go_into_queue H (track_sequence H (done_prepare entry d) p)
      (some p) = some b := by
    rw [← hb]
    apply filter_congr
    · rw [htf.2.2.2.2.2.1, hpf.2.2.2.2.2.2.1, hentry]; rfl
    · rw [htf.2.1, hpf.2.1, hentry]; rfl
  have hq : (track_sequence H (done_prepare entry d) p).queue = c.queue := by
    rw [htf.2.2.2.1, hpf.2.2.2.2.1, hentry]; rfl
  have hqs : (track_sequence H (done_prepare entry d) p).queue_size = c.queue_size := by
    rw [htf.2.2.2.2.1, hpf.2.2.2.2.2.1, hentry]; rfl
  have hseq : (track_sequence H (done_prepare entry d) p).last_sequence_number
      = (if p.s ≠ H.DISCORD_NULL_SEQUENCE_NUMBER then p.s else c.last_sequence_number) := by
    rw [htf.2.2.2.2.2.2, hpf.2.2.2.1, hentry]; rfl
  have hrel : (track_sequence H (done_prepare entry d) p).released = c.released := by
    unfold track_sequence done_prepare
    rw [hentry]
    split <;> split <;> rfl
  rw [hf, done_eq, hdec]
  simp only [hfil]
  cases b with
  | false =>
    refine ⟨_, rfl, hseq, ?_, ?_⟩
    · simp [release_payload, hq]
    · simp [release_payload, hrel]
  | true =>
    simp only [hq, hqs]
    by_cases hroom : c.queue.length < c.queue_size
    · rw [if_pos hroom]
      refine ⟨_, rfl, hseq, ?_, ?_⟩
      · simp [hroom]
      · simp [hroom, hrel]
    · rw [if_neg hroom]
      refine ⟨_, rfl, hseq, ?_, ?_⟩
      · simp [hroom, release_payload, hq]
      · simp [hroom, release_payload, hrel]

/-- Claim C4 (message filter). For a client in state `CONNECTED` with session user id `u` and a
Dispatch payload with event MESSAGE_CREATE or MESSAGE_UPDATE and message body `m`, the filter
returns `false` exactly when the body, its content or its author is absent or the author id
equals `u`; a self-authored message is refused whatever its other fields; and when a text
fragment completes such an envelope, the queue receives the payload itself exactly when the
filter returned `true` and the queue has room, and is unchanged otherwise. -/
theorem message_filter (H : gateway_header) (c : discord_client) (sess : discord_gateway_session_t)
    (p : discord_gateway_payload_t) (m : Option discord_message_t)
    (hstate : c.state = DISCORD_CLIENT_STATE_CONNECTED) (hsess : c.session = some sess)
    (hop : p.op = DISCORD_OP_DISPATCH)
    (ht : p.t = DISCORD_GATEWAY_EVENT_MESSAGE_CREATE ∨ p.t = DISCORD_GATEWAY_EVENT_MESSAGE_UPDATE)
    (hd : p.d = m.map discord_gateway_payload_data_t.message) :
    ∃ b, dcgw_whether_payload_should_go_into_queue H c (some p) = some b
      ∧ (b = false ↔ (m = none ∨ m.bind (fun msg => msg.content) = none
          ∨ m.bind (fun msg => msg.author) = none
          ∨ (m.bind (fun msg => msg.author)).map (fun a => a.id) = some sess.user.id))
      ∧ ((m.bind (fun msg => msg.author)).map (fun a => a.id) = some sess.user.id → b = false)
      ∧ ∀ (E : gateway_env) (d : esp_websocket_event_data_t),
          d.op_code ≠ WS_TRANSPORT_OPCODES_CLOSE → dcgw_completed_payload E c d = some p →
          ∃ c', dcgw_buffer_websocket_data H E c d = some (ESP_OK, c')
            ∧ c'.queue = (if b = true ∧ c.queue.length < c.queue_size then c.queue ++ [p]
                else c.queue) := by
  obtain ⟨b, hb, hiff⟩ := filter_message H c sess p m hstate hsess hop ht hd
  refine ⟨b, hb, hiff, fun h => hiff.mpr (Or.inr (Or.inr (Or.inr h))), ?_⟩
  intro E d hnc hp
  have hb2 : dcgw_whether_payload_should_go_into_queue H
      { c with state := (if d.op_code = WS_TRANSPORT_OPCODES_CLOSE then
          DISCORD_CLIENT_STATE_DISCONNECTING else c.state) } (some p) = some b := by
    rw [← hb]
    apply filter_congr
    · simp [hnc]
    · rfl
  obtain ⟨c', h1, _, h3, _⟩ := step_done H E c d p b hp hb2
  exact ⟨c', h1, h3⟩

theorem heartbeat_start_stopped (c : discord_client) (hello : discord_gateway_hello_t) (t : Nat)
    (h : c.heartbeater.running = false) :
    dcgw_heartbeat_start c (some hello) t
      = some (ESP_OK, { c with heartbeater :=
          { running := true, interval := hello.heartbeat_interval, tick_ms := t,
            received_ack := true } }) := by
  unfold dcgw_heartbeat_start
  simp [h]

theorem heartbeat_start_running (c : discord_client) (hello : Option discord_gateway_hello_t)
    (t : Nat) (h : c.heartbeater.running = true) :
    dcgw_heartbeat_start c hello t = some (ESP_OK, c) := by
  unfold dcgw_heartbeat_start
  simp [h]

theorem send_if_not_expired (H : gateway_header) (E : gateway_env) (c : discord_client) (now : Nat)
    (h : dcgw_heartbeat_expired c now = false) :
    dcgw_heartbeat_send_if_expired H E c now = (ESP_OK, c) := by
  unfold dcgw_heartbeat_send_if_expired
  simp [h]

theorem send_if_expired_ack (H : gateway_header) (E : gateway_env) (c : discord_client) (now : Nat)
    (h : dcgw_heartbeat_expired c now = true) (hack : c.heartbeater.received_ack = true) :
    dcgw_heartbeat_send_if_expired H E c now
      = dcgw_send E
          { c with heartbeater := { c.heartbeater with tick_ms := now, received_ack := false } }
          (discord_model_gateway_payload H DISCORD_OP_HEARTBEAT
            (discord_gateway_payload_data_t.heartbeat c.last_sequence_number)) := by
  unfold dcgw_heartbeat_send_if_expired
  simp [h, hack]

theorem send_if_expired_noack (H : gateway_header) (E : gateway_env) (c : discord_client)
    (now : Nat) (h : dcgw_heartbeat_expired c now = true)
    (hack : c.heartbeater.received_ack = false) :
    dcgw_heartbeat_send_if_expired H E c now
      = dcgw_close H { c with heartbeater := { c.heartbeater with tick_ms := now } }
          DISCORD_CLOSE_REASON_HEARTBEAT_ACK_NOT_RECEIVED := by
  unfold dcgw_heartbeat_send_if_expired
  simp [h, hack]

theorem send_fields (E : gateway_env) (c : discord_client) (p : discord_gateway_payload_t) :
    (dcgw_send E c p).2 = { c with sent := c.sent ++ [p] } := by
  unfold dcgw_send
  by_cases h : E.send_text p = ESP_FAIL
  · simp only [h, if_true]
  · simp only [h, if_false]

theorem expired_iff (c : discord_client) (now : Nat) (hrun : c.heartbeater.running = true)
    (hI : 0 ≤ c.heartbeater.interval) (hImax : c.heartbeater.interval ≤ 2147483647)
    (hle : c.heartbeater.tick_ms ≤ now) (hnow : now < 2 ^ 64) :
    dcgw_heartbeat_expired c now = true
      ↔ (now : Int) - (c.heartbeater.tick_ms : Int) > c.heartbeater.interval := by
  unfold dcgw_heartbeat_expired
  have h1 : ((now : Int) - (c.heartbeater.tick_ms : Int)) % 2 ^ 64
      = (now : Int) - (c.heartbeater.tick_ms : Int) := by
    apply Int.emod_eq_of_lt
    · omega
    · have : (now : Int) < 2 ^ 64 := by exact_mod_cast hnow
      omega
  have h2 : c.heartbeater.interval % 2 ^ 64 = c.heartbeater.interval := by
    apply Int.emod_eq_of_lt hI
    omega
  simp only [hrun, h1, h2, Bool.true_and, decide_eq_true_eq, gt_iff_lt]

theorem threshold_core (H : gateway_header) (E : gateway_env) (c : discord_client) (I : Int)
    (t0 now : Nat) (hstop : c.heartbeater.running = false) (hI : 0 < I) (hImax : I ≤ 2147483647)
    (hle : t0 ≤ now) (hnow : now < 2 ^ 64) :
    ∃ c1, dcgw_heartbeat_start c (some { heartbeat_interval := I }) t0 = some (ESP_OK, c1)
      ∧ (dcgw_heartbeat_expired c1 now = true ↔ (now : Int) - (t0 : Int) > I)
      ∧ ((now : Int) - (t0 : Int) > I →
          dcgw_heartbeat_send_if_expired H E c1 now
            = dcgw_send E
                { c1 with heartbeater := { c1.heartbeater with tick_ms := now, received_ack := false } }
                (discord_model_gateway_payload H DISCORD_OP_HEARTBEAT
                  (discord_gateway_payload_data_t.heartbeat c.last_sequence_number))
          ∧ (dcgw_heartbeat_send_if_expired H E c1 now).2.sent
            = c.sent ++ [discord_model_gateway_payload H DISCORD_OP_HEARTBEAT
                  (discord_gateway_payload_data_t.heartbeat c.last_sequence_number)]
          ∧ (dcgw_heartbeat_send_if_expired H E c1 now).2.close_reason = c.close_reason)
      ∧ (¬ (now : Int) - (t0 : Int) > I →
          dcgw_heartbeat_send_if_expired H E c1 now = (ESP_OK, c1)) := by
  refine ⟨_, heartbeat_start_stopped c { heartbeat_interval := I } t0 hstop, ?_⟩
  have hiff := expired_iff
    { c with heartbeater := { running := true, interval := I, tick_ms := t0, received_ack := true } }
    now rfl (le_of_lt hI) hImax hle hnow
  refine ⟨hiff, ?_, ?_⟩
  · intro hgt
    have hexp := hiff.mpr hgt
    have heq := send_if_expired_ack H E _ now hexp rfl
    refine ⟨heq, ?_, ?_⟩
    · rw [heq, send_fields]
    · rw [heq, send_fields]
  · intro hngt
    apply send_if_not_expired
    cases hexp : dcgw_heartbeat_expired
      { c with heartbeater := { running := true, interval := I, tick_ms := t0, received_ack := true } }
      now with
    | false => rfl
    | true => exact absurd (hiff.mp hexp) hngt

/-- Claim C5 (heartbeat expiry threshold). After `dcgw_heartbeat_start` at tick `t0` on a stopped
heartbeater with interval `I > 0`, the check at tick `now >= t0` fires exactly when `now - t0
> I`; when it fires it hands one heartbeat to `dcgw_send` and leaves the close reason alone,
and when it does not fire it changes nothing. With `t0 = 0` nothing happens at `now = I/2` and
a heartbeat is sent at `now = I + 1`. -/
theorem heartbeat_expiry_threshold (H : gateway_header) (E : gateway_env) (c : discord_client)
    (I : Int) (t0 now : Nat) (hstop : c.heartbeater.running = false) (hI : 0 < I)
    (hImax : I ≤ 2147483647) (hle : t0 ≤ now) (hnow : now < 2 ^ 64) :
    (∃ c1, dcgw_heartbeat_start c (some { heartbeat_interval := I }) t0 = some (ESP_OK, c1)
      ∧ (dcgw_heartbeat_expired c1 now = true ↔ (now : Int) - (t0 : Int) > I)
      ∧ ((now : Int) - (t0 : Int) > I →
          dcgw_heartbeat_send_if_expired H E c1 now
            = dcgw_send E
                { c1 with heartbeater := { c1.heartbeater with tick_ms := now, received_ack := false } }
                (discord_model_gateway_payload H DISCORD_OP_HEARTBEAT
                  (discord_gateway_payload_data_t.heartbeat c.last_sequence_number))
          ∧ (dcgw_heartbeat_send_if_expired H E c1 now).2.sent
            = c.sent ++ [discord_model_gateway_payload H DISCORD_OP_HEARTBEAT
                  (discord_gateway_payload_data_t.heartbeat c.last_sequence_number)]
          ∧ (dcgw_heartbeat_send_if_expired H E c1 now).2.close_reason = c.close_reason)
      ∧ (¬ (now : Int) - (t0 : Int) > I →
          dcgw_heartbeat_send_if_expired H E c1 now = (ESP_OK, c1)))
    ∧ (∃ c0, dcgw_heartbeat_start c (some { heartbeat_interval := I }) 0 = some (ESP_OK, c0)
      ∧ dcgw_heartbeat_send_if_expired H E c0 (I / 2).toNat = (ESP_OK, c0)
      ∧ (dcgw_heartbeat_send_if_expired H E c0 (I + 1).toNat).2.sent
          = c.sent ++ [discord_model_gateway_payload H DISCORD_OP_HEARTBEAT
                (discord_gateway_payload_data_t.heartbeat c.last_sequence_number)]) := by
  refine ⟨threshold_core H E c I t0 now hstop hI hImax hle hnow, ?_⟩
  obtain ⟨c0, hs0, _, _, hno⟩ := threshold_core H E c I 0 (I / 2).toNat hstop hI hImax
    (Nat.zero_le _) (by
      have h1 : I / 2 < 2 ^ 64 := by omega
      have h2 : ((I / 2).toNat : Int) < 2 ^ 64 := by omega
      exact_mod_cast h2)
  obtain ⟨c0', hs0', _, hyes, _⟩ := threshold_core H E c I 0 (I + 1).toNat hstop hI hImax
    (Nat.zero_le _) (by
      have h2 : ((I + 1).toNat : Int) < 2 ^ 64 := by omega
      exact_mod_cast h2)
  have hc : c0' = c0 := by
    rw [hs0] at hs0'
    simp only [Option.some.injEq, Prod.mk.injEq, true_and] at hs0'
    exact hs0'.symm
  subst hc
  refine ⟨c0', hs0, hno (by omega), (hyes (by omega)).2.1⟩

/-- Claim C7 (heartbeat content and bookkeeping). When the check fires with the previous
acknowledgment satisfied, the payload handed to `dcgw_send` has op HEARTBEAT and body
`last_sequence_number` (the null sentinel when that is what the client holds); afterwards
`received_ack` is false and `tick_ms` is `now`, with interval, running and
`last_sequence_number` unchanged. -/
theorem heartbeat_content (H : gateway_header) (E : gateway_env) (c : discord_client) (now : Nat)
    (hexp : dcgw_heartbeat_expired c now = true) (hack : c.heartbeater.received_ack = true) :
    (dcgw_heartbeat_send_if_expired H E c now).2.sent
        = c.sent ++ [discord_model_gateway_payload H DISCORD_OP_HEARTBEAT
            (discord_gateway_payload_data_t.heartbeat c.last_sequence_number)]
    ∧ (discord_model_gateway_payload H DISCORD_OP_HEARTBEAT
          (discord_gateway_payload_data_t.heartbeat c.last_sequence_number)).op = DISCORD_OP_HEARTBEAT
    ∧ (discord_model_gateway_payload H DISCORD_OP_HEARTBEAT
          (discord_gateway_payload_data_t.heartbeat c.last_sequence_number)).d
        = some (discord_gateway_payload_data_t.heartbeat c.last_sequence_number)
    ∧ (c.last_sequence_number = H.DISCORD_NULL_SEQUENCE_NUMBER →
        (dcgw_heartbeat_send_if_expired H E c now).2.sent
          = c.sent ++ [discord_model_gateway_payload H DISCORD_OP_HEARTBEAT
              (discord_gateway_payload_data_t.heartbeat H.DISCORD_NULL_SEQUENCE_NUMBER)])
    ∧ (dcgw_heartbeat_send_if_expired H E c now).2.heartbeater.received_ack = false
    ∧ (dcgw_heartbeat_send_if_expired H E c now).2.heartbeater.tick_ms = now
    ∧ (dcgw_heartbeat_send_if_expired H E c now).2.heartbeater.interval = c.heartbeater.interval
    ∧ (dcgw_heartbeat_send_if_expired H E c now).2.heartbeater.running = c.heartbeater.running
    ∧ (dcgw_heartbeat_send_if_expired H E c now).2.last_sequence_number
        = c.last_sequence_number := by
  have heq := send_if_expired_ack H E c now hexp hack
  have hsent : (dcgw_heartbeat_send_if_expired H E c now).2.sent
      = c.sent ++ [discord_model_gateway_payload H DISCORD_OP_HEARTBEAT
          (discord_gateway_payload_data_t.heartbeat c.last_sequence_number)] := by
    rw [heq, send_fields]
  refine ⟨hsent, rfl, rfl, ?_, ?_, ?_, ?_, ?_, ?_⟩
  · intro hnull
    rw [hsent, hnull]
  all_goals rw [heq, send_fields]

/-- Claim C8 (idempotent heartbeat start). On a running heartbeater `dcgw_heartbeat_start` returns
`ESP_OK` and leaves the client unchanged, for every Hello body (an absent one included); so a
start with interval `I1` at tick `t1` followed by a start with `I2` at `t2` keeps interval
`I1` and tick `t1`. -/
theorem heartbeat_start_idempotent (c : discord_client) (hello : Option discord_gateway_hello_t)
    (now : Nat) (hrun : c.heartbeater.running = true) (c0 : discord_client) (I1 I2 : Int)
    (t1 t2 : Nat) (hstop : c0.heartbeater.running = false) :
    dcgw_heartbeat_start c hello now = some (ESP_OK, c)
    ∧ ∃ c1, dcgw_heartbeat_start c0 (some { heartbeat_interval := I1 }) t1 = some (ESP_OK, c1)
        ∧ dcgw_heartbeat_start c1 (some { heartbeat_interval := I2 }) t2 = some (ESP_OK, c1)
        ∧ c1.heartbeater.interval = I1 ∧ c1.heartbeater.tick_ms = t1 := by
  refine ⟨heartbeat_start_running c hello now hrun, _,
    heartbeat_start_stopped c0 { heartbeat_interval := I1 } t1 hstop, ?_, rfl, rfl⟩
  exact heartbeat_start_running _ _ t2 rfl

theorem dispatch_frame (c : discord_client) (p : discord_gateway_payload_t)
    (r : esp_err_t × discord_client × discord_gateway_payload_t)
    (h : dcgw_dispatch c p = some r) :
    r.2.1.heartbeater = c.heartbeater ∧ r.2.1.sent = c.sent
    ∧ (r.2.1.state = c.state ∨ r.2.1.state = DISCORD_CLIENT_STATE_CONNECTED) := by
  unfold dcgw_dispatch at h
  by_cases hr : DISCORD_GATEWAY_EVENT_READY = p.t
  · rw [if_pos hr] at h
    simp only [] at h
    cases hs : as_session p.d with
    | none => simp [hs] at h
    | some s =>
      simp only [hs, Option.some.injEq] at h
      subst h
      cases c.session <;> exact ⟨rfl, rfl, Or.inr rfl⟩
  · rw [if_neg hr] at h
    revert h
    split <;> intro h <;> cases h <;> exact ⟨rfl, rfl, Or.inl rfl⟩

theorem handle_frame (H : gateway_header) (E : gateway_env) (c : discord_client)
    (p : discord_gateway_payload_t) (now : Nat) (r : esp_err_t × discord_client)
    (hstate : c.state ≠ DISCORD_CLIENT_STATE_DISCONNECTING)
    (hrun : c.heartbeater.running = true)
    (h : dcgw_handle_payload H E c (some p) now = some r) :
    r.2.state ≠ DISCORD_CLIENT_STATE_DISCONNECTING
    ∧ r.2.heartbeater = { c.heartbeater with
        received_ack := c.heartbeater.received_ack || decide (p.op = DISCORD_OP_HEARTBEAT_ACK) } := by
  unfold dcgw_handle_payload at h
  simp only [if_neg hstate] at h
  cases hop : p.op with
  | DISCORD_OP_HELLO =>
    simp only [hop, heartbeat_start_running c _ now hrun, Option.some.injEq] at h
    subst h
    unfold dcgw_identify
    rw [send_fields]
    exact ⟨hstate, by simp⟩
  | DISCORD_OP_HEARTBEAT_ACK =>
    simp only [hop, Option.some.injEq] at h
    subst h
    exact ⟨hstate, by simp⟩
  | DISCORD_OP_DISPATCH =>
    simp only [hop] at h
    cases hd : dcgw_dispatch c p with
    | none => simp [hd] at h
    | some r1 =>
      obtain ⟨h1, _, h3⟩ := dispatch_frame c p r1 hd
      obtain ⟨e1, c1, p1⟩ := r1
      simp only [hd, Option.some.injEq] at h
      subst h
      refine ⟨?_, ?_⟩
      · show c1.state ≠ _
        rcases h3 with h3 | h3
        · exact h3 ▸ hstate
        · rw [show c1.state = DISCORD_CLIENT_STATE_CONNECTED from h3]; decide
      · show c1.heartbeater = _
        rw [show c1.heartbeater = c.heartbeater from h1]
        simp
  | DISCORD_OP_HEARTBEAT =>
    simp only [hop, Option.some.injEq] at h
    subst h
    exact ⟨hstate, by simp⟩
  | DISCORD_OP_IDENTIFY =>
    simp only [hop, Option.some.injEq] at h
    subst h
    exact ⟨hstate, by simp⟩
  | DISCORD_OP_OTHER n =>
    simp only [hop, Option.some.injEq] at h
    subst h
    exact ⟨hstate, by simp⟩

theorem handle_payloads_frame (H : gateway_header) (E : gateway_env)
    (ps : List (discord_gateway_payload_t × Nat)) :
    ∀ (c c2 : discord_client), c.state ≠ DISCORD_CLIENT_STATE_DISCONNECTING →
      c.heartbeater.running = true → dcgw_handle_payloads H E c ps = some c2 →
      c2.state ≠ DISCORD_CLIENT_STATE_DISCONNECTING
      ∧ c2.heartbeater = { c.heartbeater with
          received_ack := c.heartbeater.received_ack
            || ps.any (fun q => decide (q.1.op = DISCORD_OP_HEARTBEAT_ACK)) } := by
  induction ps with
  | nil =>
    intro c c2 hstate _ h
    simp only [dcgw_handle_payloads, Option.some.injEq] at h
    subst h
    exact ⟨hstate, by simp⟩
  | cons q rest ih =>
    intro c c2 hstate hrun h
    obtain ⟨p, now⟩ := q
    simp only [dcgw_handle_payloads] at h
    cases hstep : dcgw_handle_payload H E c (some p) now with
    | none => simp [hstep] at h
    | some r =>
      obtain ⟨h1, h2⟩ := handle_frame H E c p now r hstate hrun hstep
      obtain ⟨e, c1⟩ := r
      simp only [hstep] at h
      have hrun1 : c1.heartbeater.running = true := by
        rw [show c1.heartbeater = _ from h2]; exact hrun
      obtain ⟨h3, h4⟩ := ih c1 c2 h1 hrun1 h
      refine ⟨h3, ?_⟩
      rw [h4, show c1.heartbeater = _ from h2]
      simp [Bool.or_assoc]

theorem expired_congr (c c' : discord_client) (now : Nat)
    (h1 : c'.heartbeater.running = c.heartbeater.running)
    (h2 : c'.heartbeater.tick_ms = c.heartbeater.tick_ms)
    (h3 : c'.heartbeater.interval = c.heartbeater.interval) :
    dcgw_heartbeat_expired c' now = dcgw_heartbeat_expired c now := by
  unfold dcgw_heartbeat_expired
  rw [h1, h2, h3]

theorem expired_running (c : discord_client) (now : Nat) (h : dcgw_heartbeat_expired c now = true) :
    c.heartbeater.running = true := by
  unfold dcgw_heartbeat_expired at h
  simp only [Bool.and_eq_true] at h
  exact h.1

theorem close_not_open (H : gateway_header) (c : discord_client) (reason : discord_close_reason_t)
    (h : dcgw_is_open H c = false) : dcgw_close H c reason = (ESP_OK, c) := by
  unfold dcgw_close
  simp [h]

theorem close_open (H : gateway_header) (c : discord_client) (reason : discord_close_reason_t)
    (h : dcgw_is_open H c = true) :
    dcgw_close H c reason
      = (ESP_OK, { c with
          close_reason := reason
          ws := (if c.ws.connected then esp_websocket_client_close c.ws else c.ws)
          heartbeater := { running := false, interval := 0, tick_ms := 0, received_ack := false }
          last_sequence_number := H.DISCORD_NULL_SEQUENCE_NUMBER
          buffer_len := 0 }) := by
  unfold dcgw_close
  simp only [h, Bool.not_true, Bool.false_eq_true, if_false]
  by_cases hc : c.ws.connected = true
  · simp [hc, dcgw_reset, dcgw_heartbeat_stop]
  · simp [hc, dcgw_reset, dcgw_heartbeat_stop]

theorem close_sent (H : gateway_header) (c : discord_client) (reason : discord_close_reason_t) :
    (dcgw_close H c reason).2.sent = c.sent := by
  cases h : dcgw_is_open H c with
  | false => rw [close_not_open H c reason h]
  | true => rw [close_open H c reason h]

theorem handle_disconnecting (H : gateway_header) (E : gateway_env) (c : discord_client)
    (p : discord_gateway_payload_t) (now : Nat)
    (h : c.state = DISCORD_CLIENT_STATE_DISCONNECTING) :
    ∃ c2, dcgw_handle_payload H E c (some p) now = some (ESP_OK, c2)
      ∧ c2.heartbeater = c.heartbeater ∧ c2.sent = c.sent := by
  unfold dcgw_handle_payload
  simp only [if_pos h]
  by_cases hcode : dcgw_close_opcode H c = H.DISCORD_CLOSEOP_NO_CODE
  · rw [if_pos hcode]
    exact ⟨_, rfl, rfl, rfl⟩
  · rw [if_neg hcode]
    exact ⟨_, rfl, rfl, rfl⟩

/-- Claim C6 as stated fails in state `DISCONNECTING`: the client sends a heartbeat at tick 11, an
acknowledgment is passed to `dcgw_handle_payload` at tick 12, and the expiry at tick 22 still
sends no heartbeat and closes with `HEARTBEAT_ACK_NOT_RECEIVED`. The last part is the same run
with `DISCONNECTING` numbered below every other state: again no second heartbeat is sent. -/
theorem ack_ignored_while_disconnecting :
    dcgw_heartbeat_expired disconnecting_client 11 = true
    ∧ (dcgw_heartbeat_send_if_expired example_header example_env disconnecting_client 11).2.sent
        = [discord_model_gateway_payload example_header DISCORD_OP_HEARTBEAT
            (discord_gateway_payload_data_t.heartbeat (-1))]
    ∧ (dcgw_handle_payloads example_header example_env
          (dcgw_heartbeat_send_if_expired example_header example_env disconnecting_client 11).2
          [(ack_payload, 12)]).map
        (fun c2 => (dcgw_heartbeat_expired c2 22,
          (dcgw_heartbeat_send_if_expired example_header example_env c2 22).2.sent,
          (dcgw_heartbeat_send_if_expired example_header example_env c2 22).2.close_reason))
        = some (true,
            [discord_model_gateway_payload example_header DISCORD_OP_HEARTBEAT
              (discord_gateway_payload_data_t.heartbeat (-1))],
            DISCORD_CLOSE_REASON_HEARTBEAT_ACK_NOT_RECEIVED)
    ∧ (dcgw_handle_payloads low_header example_env
          (dcgw_heartbeat_send_if_expired low_header example_env disconnecting_client 11).2
          [(ack_payload, 12)]).map
        (fun c2 => (dcgw_heartbeat_expired c2 22,
          (dcgw_heartbeat_send_if_expired low_header example_env c2 22).2.sent))
        = some (true,
            [discord_model_gateway_payload low_header DISCORD_OP_HEARTBEAT
              (discord_gateway_payload_data_t.heartbeat (-1))]) := by
  refine ⟨by decide, by decide, by decide, by decide⟩

/-- Claim C2 at a fragment declaring 2000 bytes for the 1024-byte buffer. -/
theorem overflow_rejection_witness :
    oversized_fragment.payload_len > example_client.config.buffer_size
    ∧ dcgw_buffer_websocket_data example_header example_env example_client oversized_fragment
        = some (ESP_FAIL, example_client)
    ∧ dcgw_feed example_header example_env example_client [oversized_fragment, text_frame]
        = dcgw_feed example_header example_env example_client [text_frame] :=
  ⟨by decide,
    (overflow_rejection example_header example_env example_client oversized_fragment
      (by decide)).1,
    (overflow_rejection example_header example_env example_client oversized_fragment
      (by decide)).2.2 [text_frame]⟩

/-- Claim C4 at the scenario of the spec: session user U1; the message of author U1 leaves the
queue empty, the message of author U2 with content "hi" is enqueued unchanged. -/
theorem message_filter_witness :
    connected_client.state = DISCORD_CLIENT_STATE_CONNECTED
    ∧ (∃ c', dcgw_buffer_websocket_data example_header (constant_decoder (message_payload "U1"))
          connected_client text_frame = some (ESP_OK, c')
        ∧ c'.queue = [])
    ∧ (∃ c', dcgw_buffer_websocket_data example_header (constant_decoder (message_payload "U2"))
          connected_client text_frame = some (ESP_OK, c')
        ∧ c'.queue = [message_payload "U2"]) := by
  refine ⟨rfl, ?_, ?_⟩
  · obtain ⟨b, _, _, hself, hq⟩ := message_filter example_header connected_client
      { session_id := "S1", user := { id := "U1", bot := true, username := none, discriminator := none } }
      (message_payload "U1")
      (some { id := some "M1", content := some "hi", channel_id := some "C1",
              author := some { id := "U1", bot := false, username := none, discriminator := none } })
      rfl rfl rfl (Or.inl rfl) rfl
    obtain ⟨c', h1, h2⟩ := hq (constant_decoder (message_payload "U1")) text_frame (by decide) (by decide)
    have hb : b = false := hself rfl
    subst hb
    exact ⟨c', h1, by simpa using h2⟩
  · obtain ⟨b, _, hiff, _, hq⟩ := message_filter example_header connected_client
      { session_id := "S1", user := { id := "U1", bot := true, username := none, discriminator := none } }
      (message_payload "U2")
      (some { id := some "M1", content := some "hi", channel_id := some "C1",
              author := some { id := "U2", bot := false, username := none, discriminator := none } })
      rfl rfl rfl (Or.inl rfl) rfl
    obtain ⟨c', h1, h2⟩ := hq (constant_decoder (message_payload "U2")) text_frame (by decide) (by decide)
    have hb : b = true := by
      cases b with
      | true => rfl
      | false => exact absurd (hiff.mp rfl) (by decide)
    subst hb
    refine ⟨c', h1, ?_⟩
    rw [h2, if_pos ⟨rfl, by decide⟩]
    rfl

/-- Claim C5 at interval 500: nothing at tick 250, a heartbeat at tick 501. -/
theorem heartbeat_expiry_threshold_witness :
    example_client.heartbeater.running = false
    ∧ ∃ c0, dcgw_heartbeat_start example_client (some { heartbeat_interval := 500 }) 0
          = some (ESP_OK, c0)
        ∧ dcgw_heartbeat_send_if_expired example_header example_env c0 250 = (ESP_OK, c0)
        ∧ (dcgw_heartbeat_send_if_expired example_header example_env c0 501).2.sent
            = [discord_model_gateway_payload example_header DISCORD_OP_HEARTBEAT
                (discord_gateway_payload_data_t.heartbeat (-1))] := by
  refine ⟨rfl, ?_⟩
  obtain ⟨c0, h1, h2, h3⟩ := (heartbeat_expiry_threshold example_header example_env example_client
    500 0 0 rfl (by decide) (by decide) (by decide) (by decide)).2
  exact ⟨c0, h1, h2, h3⟩

/-- Claim C7 at the beating client, tick 11. -/
theorem heartbeat_content_witness :
    dcgw_heartbeat_expired beating_client 11 = true
    ∧ (dcgw_heartbeat_send_if_expired example_header example_env beating_client 11).2.sent
        = [discord_model_gateway_payload example_header DISCORD_OP_HEARTBEAT
            (discord_gateway_payload_data_t.heartbeat (-1))]
    ∧ (dcgw_heartbeat_send_if_expired example_header example_env beating_client 11).2.heartbeater
        = { running := true, interval := 10, tick_ms := 11, received_ack := false } := by
  have h := heartbeat_content example_header example_env beating_client 11 (by decide) rfl
  refine ⟨by decide, h.1, ?_⟩
  obtain ⟨_, _, _, _, h5, h6, h7, h8, _⟩ := h
  cases hh : (dcgw_heartbeat_send_if_expired example_header example_env beating_client 11).2.heartbeater
  rw [hh] at h5 h6 h7 h8
  simp only at h5 h6 h7 h8
  subst h5 h6 h7 h8
  rfl

/-- Claim C8 at intervals 500 then 700. -/
theorem heartbeat_start_idempotent_witness :
    beating_client.heartbeater.running = true
    ∧ dcgw_heartbeat_start beating_client (some { heartbeat_interval := 700 }) 99
        = some (ESP_OK, beating_client)
    ∧ ∃ c1, dcgw_heartbeat_start example_client (some { heartbeat_interval := 500 }) 3
          = some (ESP_OK, c1)
        ∧ dcgw_heartbeat_start c1 (some { heartbeat_interval := 700 }) 99 = some (ESP_OK, c1)
        ∧ c1.heartbeater.interval = 500 ∧ c1.heartbeater.tick_ms = 3 :=
  ⟨rfl,
    (heartbeat_start_idempotent beating_client (some { heartbeat_interval := 700 }) 99 rfl
      example_client 500 700 3 99 rfl).1,
    (heartbeat_start_idempotent beating_client (some { heartbeat_interval := 700 }) 99 rfl
      example_client 500 700 3 99 rfl).2⟩

theorem handle_hello (H : gateway_header) (E : gateway_env) (c : discord_client)
    (p : discord_gateway_payload_t) (I : Int) (now : Nat)
    (hstate : c.state ≠ DISCORD_CLIENT_STATE_DISCONNECTING) (hop : p.op = DISCORD_OP_HELLO)
    (hd : p.d = some (discord_gateway_payload_data_t.hello { heartbeat_interval := I })) :
    ∃ c', dcgw_handle_payload H E c (some p) now = some (ESP_OK, c')
      ∧ c'.state = c.state ∧ c'.session = c.session
      ∧ c'.sent = c.sent ++ [discord_model_gateway_payload H DISCORD_OP_IDENTIFY
          (discord_gateway_payload_data_t.identify
            { token := c.config.token
              intents := c.config.intents
              properties := { os := "freertos", browser := "esp-idf", device := "esp32" } })]
      ∧ (c.heartbeater.running = false →
          c'.heartbeater = { running := true, interval := I, tick_ms := now, received_ack := true })
      ∧ (c.heartbeater.running = true → c'.heartbeater = c.heartbeater) := by
  unfold dcgw_handle_payload
  simp only [if_neg hstate, hop, hd, as_hello]
  cases hrun : c.heartbeater.running with
  | false =>
    rw [heartbeat_start_stopped c _ now hrun]
    simp only []
    unfold dcgw_identify
    rw [send_fields]
    refine ⟨_, rfl, rfl, rfl, rfl, ?_, ?_⟩
    · intro _; rfl
    · intro h; cases h
  | true =>
    rw [heartbeat_start_running c _ now hrun]
    simp only []
    unfold dcgw_identify
    rw [send_fields]
    refine ⟨_, rfl, rfl, rfl, rfl, ?_, ?_⟩
    · intro h; cases h
    · intro _; rfl

theorem handle_ready (H : gateway_header) (E : gateway_env) (c : discord_client)
    (p : discord_gateway_payload_t) (b : discord_gateway_session_t) (now : Nat)
    (hstate : c.state ≠ DISCORD_CLIENT_STATE_DISCONNECTING) (hop : p.op = DISCORD_OP_DISPATCH)
    (ht : p.t = DISCORD_GATEWAY_EVENT_READY)
    (hd : p.d = some (discord_gateway_payload_data_t.session b)) :
    ∃ c', dcgw_handle_payload H E c (some p) now = some (ESP_OK, c')
      ∧ c'.session = some b
      ∧ c'.state = DISCORD_CLIENT_STATE_CONNECTED
      ∧ c'.emitted = c.emitted ++ [(DISCORD_EVENT_CONNECTED, none)]
      ∧ c'.released = c.released ++ (c.session.toList.map released_t.session)
          ++ [released_t.payload { p with d := none }] := by
  unfold dcgw_handle_payload
  simp only [if_neg hstate, hop]
  unfold dcgw_dispatch
  simp only [ht, if_true, hd, as_session]
  cases hs : c.session with
  | none => exact ⟨_, rfl, rfl, rfl, rfl, by simp [hop, ht]⟩
  | some s => exact ⟨_, rfl, rfl, rfl, rfl, by simp [hop, ht]⟩

/-- Claim C11, amended (Hello transition). For every client in state `CONNECTING` or
`CONNECTED`, handling a Hello envelope returns `ESP_OK`, sends the Identify, and leaves the state
as it was: a `CONNECTING` client stays `CONNECTING`. The state becomes `CONNECTED` when the
READY dispatch that follows is handled. -/
theorem hello_keeps_state (H : gateway_header) (E : gateway_env) (c : discord_client)
    (p : discord_gateway_payload_t) (I : Int) (now : Nat)
    (hstate : c.state = DISCORD_CLIENT_STATE_CONNECTING ∨ c.state = DISCORD_CLIENT_STATE_CONNECTED)
    (hop : p.op = DISCORD_OP_HELLO)
    (hd : p.d = some (discord_gateway_payload_data_t.hello { heartbeat_interval := I })) :
    ∃ c', dcgw_handle_payload H E c (some p) now = some (ESP_OK, c')
      ∧ c'.state = c.state
      ∧ (c'.state = DISCORD_CLIENT_STATE_CONNECTED ↔ c.state = DISCORD_CLIENT_STATE_CONNECTED)
      ∧ c'.sent = c.sent ++ [discord_model_gateway_payload H DISCORD_OP_IDENTIFY
          (discord_gateway_payload_data_t.identify
            { token := c.config.token
              intents := c.config.intents
              properties := { os := "freertos", browser := "esp-idf", device := "esp32" } })]
      ∧ (c.heartbeater.running = false →
          c'.heartbeater = { running := true, interval := I, tick_ms := now, received_ack := true })
      ∧ ∀ (q : discord_gateway_payload_t) (b : discord_gateway_session_t) (now2 : Nat),
          q.op = DISCORD_OP_DISPATCH → q.t = DISCORD_GATEWAY_EVENT_READY →
          q.d = some (discord_gateway_payload_data_t.session b) →
          ∃ c2, dcgw_handle_payload H E c' (some q) now2 = some (ESP_OK, c2)
            ∧ c2.state = DISCORD_CLIENT_STATE_CONNECTED := by
  have hnd : c.state ≠ DISCORD_CLIENT_STATE_DISCONNECTING := by
    rcases hstate with h | h <;> rw [h] <;> decide
  obtain ⟨c', h1, h2, _, h4, h5, _⟩ := handle_hello H E c p I now hnd hop hd
  refine ⟨c', h1, h2, by rw [h2], h4, h5, ?_⟩
  intro q b now2 hqop hqt hqd
  obtain ⟨c2, g1, _, g3, _⟩ := handle_ready H E c' q b now2 (by rw [h2]; exact hnd) hqop hqt hqd
  exact ⟨c2, g1, g3⟩

/-- Claim C11 as stated fails: a `CONNECTING` client that handles a Hello with interval 500 is
still `CONNECTING` afterwards. -/
theorem hello_leaves_connecting :
    (dcgw_handle_payload example_header example_env connecting_client (some hello_payload) 7).map
      (fun r => (r.1, r.2.state, r.2.heartbeater.interval))
      = some (ESP_OK, DISCORD_CLIENT_STATE_CONNECTING, 500) := by
  decide

/-- Claim C11 (amended) at a `CONNECTING` client, Hello with interval 500, then READY. -/
theorem hello_keeps_state_witness :
    connecting_client.state = DISCORD_CLIENT_STATE_CONNECTING
    ∧ ∃ c', dcgw_handle_payload example_header example_env connecting_client
          (some hello_payload) 7 = some (ESP_OK, c')
        ∧ c'.state = DISCORD_CLIENT_STATE_CONNECTING
        ∧ ∃ c2, dcgw_handle_payload example_header example_env c' (some ready_payload) 8
            = some (ESP_OK, c2)
          ∧ c2.state = DISCORD_CLIENT_STATE_CONNECTED := by
  obtain ⟨c', h1, h2, _, _, _, h6⟩ := hello_keeps_state example_header example_env
    connecting_client hello_payload 500 7 (Or.inl rfl) rfl rfl
  obtain ⟨c2, g1, g2⟩ := h6 ready_payload
    { session_id := "S2", user := { id := "U2", bot := true, username := none, discriminator := none } }
    8 rfl rfl rfl
  exact ⟨rfl, c', h1, h2, c2, g1, g2⟩

/-- Claim C12, amended (ownership hand-off on Ready). For every client that is not in state
`DISCONNECTING`, with or without a prior session, and every READY dispatch with body `b`:
`dcgw_handle_payload` returns `ESP_OK`, the session is `b`, the state is `CONNECTED`, exactly one
`CONNECTED` event is emitted, and the releases are, in order, the prior session (once, if there
was one) and the envelope with an empty body slot, so `b` is not released with it. -/
theorem ready_handoff (H : gateway_header) (E : gateway_env) (c : discord_client)
    (p : discord_gateway_payload_t) (b : discord_gateway_session_t) (now : Nat)
    (hstate : c.state ≠ DISCORD_CLIENT_STATE_DISCONNECTING) (hop : p.op = DISCORD_OP_DISPATCH)
    (ht : p.t = DISCORD_GATEWAY_EVENT_READY)
    (hd : p.d = some (discord_gateway_payload_data_t.session b)) :
    ∃ c', dcgw_handle_payload H E c (some p) now = some (ESP_OK, c')
      ∧ c'.session = some b
      ∧ c'.state = DISCORD_CLIENT_STATE_CONNECTED
      ∧ c'.emitted = c.emitted ++ [(DISCORD_EVENT_CONNECTED, none)]
      ∧ c'.released = c.released ++ (c.session.toList.map released_t.session)
          ++ [released_t.payload { p with d := none }]
      ∧ (c.session = none → c'.released = c.released ++ [released_t.payload { p with d := none }])
      ∧ (∀ s, c.session = some s →
          c'.released = c.released ++ [released_t.session s, released_t.payload { p with d := none }]) := by
  obtain ⟨c', h1, h2, h3, h4, h5⟩ := handle_ready H E c p b now hstate hop ht hd
  refine ⟨c', h1, h2, h3, h4, h5, ?_, ?_⟩
  · intro hs
    rw [h5, hs]
    simp
  · intro s hs
    rw [h5, hs]
    simp

/-- Claim C12 as stated fails in state `DISCONNECTING`: the READY dispatch is not acted on, the
client keeps no session and its state, no event is emitted, and nothing is released. -/
theorem ready_ignored_while_disconnecting :
    (dcgw_handle_payload example_header example_env disconnecting_client (some ready_payload) 7).map
      (fun r => (r.1, r.2.session, r.2.state, r.2.emitted, r.2.released))
      = some (ESP_OK, none, DISCORD_CLIENT_STATE_DISCONNECTING, [], []) := by
  rfl

/-- Claim C12 (amended) at the connected client with the session of U1 and a READY for U2. -/
theorem ready_handoff_witness :
    connected_client.state ≠ DISCORD_CLIENT_STATE_DISCONNECTING
    ∧ ∃ c', dcgw_handle_payload example_header example_env connected_client
          (some ready_payload) 7 = some (ESP_OK, c')
        ∧ c'.session = some
            { session_id := "S2"
              user := { id := "U2", bot := true, username := none, discriminator := none } }
        ∧ c'.emitted = [(DISCORD_EVENT_CONNECTED, none)]
        ∧ c'.released = [released_t.session
              { session_id := "S1"
                user := { id := "U1", bot := true, username := none, discriminator := none } },
            released_t.payload { ready_payload with d := none }] := by
  obtain ⟨c', h1, h2, _, h4, _, _, h7⟩ := ready_handoff example_header example_env
    connected_client ready_payload
    { session_id := "S2", user := { id := "U2", bot := true, username := none, discriminator := none } }
    7 (by decide) rfl rfl rfl
  exact ⟨by decide, c', h1, h2, h4, h7 _ rfl⟩

theorem buffer_len_irrelevant (H : gateway_header) (E : gateway_env) (c : discord_client)
    (d : esp_websocket_event_data_t) (n : Int) (hcap : d.payload_len ≤ c.config.buffer_size) :
    dcgw_buffer_websocket_data H E { c with buffer_len := n } d
      = dcgw_buffer_websocket_data H E c d := by
  unfold dcgw_buffer_websocket_data
  rw [store_eq c d hcap, store_eq { c with buffer_len := n } d hcap]
  cases decide (d.data_len + d.payload_offset ≥ d.payload_len) <;> rfl

/-- Claim C13, amended (buffer after completion). For every fragment that completes a message
(`payload_offset + data_len >= payload_len`, `payload_len <= buffer_size`), after
`dcgw_buffer_websocket_data` returns `buffer_len` is `data_len + payload_offset`, the length of
what was buffered: it is not reset. The call returns whenever a session is present. The next
accepted fragment starts a new message all the same, because the call assigns `buffer_len` and
gives the same result whatever `buffer_len` was before, 0 included. -/
theorem buffer_len_after_completion (H : gateway_header) (E : gateway_env) (c : discord_client)
    (d : esp_websocket_event_data_t) (hcap : d.payload_len ≤ c.config.buffer_size)
    (hdone : d.payload_len ≤ d.data_len + d.payload_offset) :
    (∀ r, dcgw_buffer_websocket_data H E c d = some r →
      r.2.buffer_len = d.data_len + d.payload_offset ∧ r.2.buffer_len ≥ d.payload_len)
    ∧ (c.session ≠ none → ∃ r, dcgw_buffer_websocket_data H E c d = some r)
    ∧ ∀ (c' : discord_client) (d2 : esp_websocket_event_data_t),
        d2.payload_len ≤ c'.config.buffer_size →
        dcgw_buffer_websocket_data H E { c' with buffer_len := 0 } d2
          = dcgw_buffer_websocket_data H E c' d2 := by
  refine ⟨?_, step_returns H E c d, fun c' d2 h2 => buffer_len_irrelevant H E c' d2 0 h2⟩
  intro r hr
  obtain ⟨_, _, hlen⟩ := step_frame H E c d r hr
  rcases hlen with ⟨_, hbig⟩ | ⟨h1, _⟩
  · omega
  · rw [h1]
    exact ⟨rfl, by omega⟩

/-- Claim C13 as stated fails: the two-byte text frame completes a message and
`dcgw_buffer_websocket_data` returns `ESP_OK` with `buffer_len = 2`, not 0. -/
theorem buffer_len_kept_after_completion :
    text_frame.payload_len ≤ text_frame.payload_offset + text_frame.data_len
    ∧ text_frame.payload_len ≤ connected_client.config.buffer_size
    ∧ (dcgw_buffer_websocket_data example_header (constant_decoder (message_payload "U2"))
        connected_client text_frame).map (fun r => (r.1, r.2.buffer_len)) = some (ESP_OK, 2) := by
  refine ⟨by decide, by decide, by decide⟩

/-- Claim C13 (amended) at the two-byte text frame. -/
theorem buffer_len_after_completion_witness :
    text_frame.payload_len ≤ connected_client.config.buffer_size
    ∧ text_frame.payload_len ≤ text_frame.data_len + text_frame.payload_offset
    ∧ ∃ r, dcgw_buffer_websocket_data example_header (constant_decoder (message_payload "U2"))
          connected_client text_frame = some r
        ∧ r.2.buffer_len = 2 := by
  have h := buffer_len_after_completion example_header (constant_decoder (message_payload "U2"))
    connected_client text_frame (by decide) (by decide)
  obtain ⟨r, hr⟩ := h.2.1 (by decide)
  exact ⟨by decide, by decide, r, hr, (h.1 r hr).1⟩

/-- Claim C15 (close-code extraction). With `code = 256 * buffer[0] + buffer[1]` (bytes read
as unsigned values): when the state is `DISCONNECTING`, `buffer_len >= 2` and `code` lies in
`[_DISCORD_CLOSEOP_MIN, _DISCORD_CLOSEOP_MAX]`, `dcgw_close_opcode` returns `code`; in every
other case it returns the `NO_CODE` sentinel; so, the sentinel being different from `code`, the
result is `code` exactly in the first case. In state `DISCONNECTING` `dcgw_handle_payload` stores
the result in `close_code` unless it is the sentinel. -/
theorem close_code_extraction (H : gateway_header) (c : discord_client) :
    (c.state = DISCORD_CLIENT_STATE_DISCONNECTING ∧ c.buffer_len ≥ 2
        ∧ H.DISCORD_CLOSEOP_MIN ≤ 256 * (c.buffer 0 : Int) + (c.buffer 1 : Int)
        ∧ 256 * (c.buffer 0 : Int) + (c.buffer 1 : Int) ≤ H.DISCORD_CLOSEOP_MAX →
      dcgw_close_opcode H c = 256 * (c.buffer 0 : Int) + (c.buffer 1 : Int))
    ∧ (¬ (c.state = DISCORD_CLIENT_STATE_DISCONNECTING ∧ c.buffer_len ≥ 2
        ∧ H.DISCORD_CLOSEOP_MIN ≤ 256 * (c.buffer 0 : Int) + (c.buffer 1 : Int)
        ∧ 256 * (c.buffer 0 : Int) + (c.buffer 1 : Int) ≤ H.DISCORD_CLOSEOP_MAX) →
      dcgw_close_opcode H c = H.DISCORD_CLOSEOP_NO_CODE)
    ∧ (H.DISCORD_CLOSEOP_NO_CODE ≠ 256 * (c.buffer 0 : Int) + (c.buffer 1 : Int) →
        (dcgw_close_opcode H c = 256 * (c.buffer 0 : Int) + (c.buffer 1 : Int)
          ↔ (c.state = DISCORD_CLIENT_STATE_DISCONNECTING ∧ c.buffer_len ≥ 2
            ∧ H.DISCORD_CLOSEOP_MIN ≤ 256 * (c.buffer 0 : Int) + (c.buffer 1 : Int)
            ∧ 256 * (c.buffer 0 : Int) + (c.buffer 1 : Int) ≤ H.DISCORD_CLOSEOP_MAX)))
    ∧ (c.state = DISCORD_CLIENT_STATE_DISCONNECTING →
        ∀ (E : gateway_env) (p : discord_gateway_payload_t) (now : Nat),
          ∃ c', dcgw_handle_payload H E c (some p) now = some (ESP_OK, c')
            ∧ c'.close_code = (if dcgw_close_opcode H c = H.DISCORD_CLOSEOP_NO_CODE
                then c.close_code else dcgw_close_opcode H c)) := by
  have hyes : (c.state = DISCORD_CLIENT_STATE_DISCONNECTING ∧ c.buffer_len ≥ 2
        ∧ H.DISCORD_CLOSEOP_MIN ≤ 256 * (c.buffer 0 : Int) + (c.buffer 1 : Int)
        ∧ 256 * (c.buffer 0 : Int) + (c.buffer 1 : Int) ≤ H.DISCORD_CLOSEOP_MAX) →
      dcgw_close_opcode H c = 256 * (c.buffer 0 : Int) + (c.buffer 1 : Int) := by
    intro ⟨h1, h2, h3, h4⟩
    unfold dcgw_close_opcode
    rw [if_pos ⟨h1, h2⟩]
    simp only []
    rw [if_pos ⟨h3, h4⟩]
  have hno : ¬ (c.state = DISCORD_CLIENT_STATE_DISCONNECTING ∧ c.buffer_len ≥ 2
        ∧ H.DISCORD_CLOSEOP_MIN ≤ 256 * (c.buffer 0 : Int) + (c.buffer 1 : Int)
        ∧ 256 * (c.buffer 0 : Int) + (c.buffer 1 : Int) ≤ H.DISCORD_CLOSEOP_MAX) →
      dcgw_close_opcode H c = H.DISCORD_CLOSEOP_NO_CODE := by
    intro hn
    unfold dcgw_close_opcode
    by_cases h12 : c.state = DISCORD_CLIENT_STATE_DISCONNECTING ∧ c.buffer_len ≥ 2
    · rw [if_pos h12]
      simp only []
      rw [if_neg (fun h34 => hn ⟨h12.1, h12.2, h34.1, h34.2⟩)]
    · rw [if_neg h12]
  refine ⟨hyes, hno, ?_, ?_⟩
  · intro hne
    constructor
    · intro heq
      by_contra hn
      rw [hno hn] at heq
      exact hne heq
    · exact hyes
  · intro hstate E p now
    unfold dcgw_handle_payload
    simp only [if_pos hstate]
    by_cases hcode : dcgw_close_opcode H c = H.DISCORD_CLOSEOP_NO_CODE
    · rw [if_pos hcode, if_pos hcode]
      exact ⟨_, rfl, rfl⟩
    · rw [if_neg hcode, if_neg hcode]
      exact ⟨_, rfl, rfl⟩

/-- Claim C15 at a `DISCONNECTING` client whose buffer starts with the bytes 15 and 164: the
close code is 4004; in state `CONNECTED` the same bytes give the sentinel. -/
theorem close_code_extraction_witness :
    dcgw_close_opcode example_header closing_client = 4004
    ∧ dcgw_close_opcode example_header
        { closing_client with state := DISCORD_CLIENT_STATE_CONNECTED } = -1 := by
  constructor
  · exact (close_code_extraction example_header closing_client).1 (by decide)
  · exact (close_code_extraction example_header
      { closing_client with state := DISCORD_CLIENT_STATE_CONNECTED }).2.1 (by decide)

/-- Claim C18 fails at a message of exactly `buffer_size` bytes: the fragment is accepted and
consistent, the copy stays inside the 1024-byte buffer, and on completion the NUL terminator is
stored at index `buffer_len = 1024 = buffer_size`, one past the buffer: the byte there, 7 before
the call, is 0 after it. -/
theorem nul_terminator_past_buffer :
    (0 ≤ full_frame.payload_offset ∧ 0 ≤ full_frame.data_len
      ∧ full_frame.payload_offset + full_frame.data_len ≤ full_frame.payload_len
      ∧ full_frame.payload_len ≤ guarded_client.config.buffer_size)
    ∧ guarded_client.buffer 1024 = 7
    ∧ (dcgw_buffer_websocket_data example_header (constant_decoder (message_payload "U2"))
        guarded_client full_frame).map
        (fun r => (r.1, r.2.buffer_len, r.2.config.buffer_size, r.2.buffer 0, r.2.buffer 1024))
        = some (ESP_OK, 1024, 1024, 65, 0) := by
  refine ⟨by decide, by decide, ?_⟩
  rfl

theorem done_state (H : gateway_header) (E : gateway_env) (c : discord_client)
    (d : esp_websocket_event_data_t) (r : esp_err_t × discord_client)
    (h : dcgw_buffer_websocket_data_done H E c d = some r) :
    r.2.session = c.session
    ∧ (r.2.state = c.state ∨ r.2.state = DISCORD_CLIENT_STATE_DISCONNECTING) := by
  rw [done_eq] at h
  have hp := done_prepare_fields c d
  have hst : (done_prepare c d).state = c.state
      ∨ (done_prepare c d).state = DISCORD_CLIENT_STATE_DISCONNECTING := by
    rw [hp.2.2.2.2.2.2.1]
    by_cases hc : d.op_code = WS_TRANSPORT_OPCODES_CLOSE
    · right; rw [if_pos hc]
    · left; rw [if_neg hc]
  revert h
  split
  · intro h; cases h; exact ⟨hp.2.1, hst⟩
  · rename_i p _
    have ht := track_sequence_fields H (done_prepare c d) p
    have hts : (track_sequence H (done_prepare c d) p).state = c.state
        ∨ (track_sequence H (done_prepare c d) p).state = DISCORD_CLIENT_STATE_DISCONNECTING := by
      rw [ht.2.2.2.2.2.1]; exact hst
    split
    · intro h; cases h
    · intro h; cases h
      exact ⟨ht.2.1.trans hp.2.1, hts⟩
    · split <;> intro h <;> cases h <;> exact ⟨ht.2.1.trans hp.2.1, hts⟩

theorem step_state (H : gateway_header) (E : gateway_env) (c : discord_client)
    (d : esp_websocket_event_data_t) (r : esp_err_t × discord_client)
    (h : dcgw_buffer_websocket_data H E c d = some r) :
    r.2.session = c.session
    ∧ (r.2.state = c.state ∨ r.2.state = DISCORD_CLIENT_STATE_DISCONNECTING) := by
  by_cases hbig : d.payload_len > c.config.buffer_size
  · rw [(step_fail H E c d hbig).1] at h
    cases h
    exact ⟨rfl, Or.inl rfl⟩
  · have hcap : d.payload_len ≤ c.config.buffer_size := by omega
    by_cases hdone : d.payload_len ≤ d.data_len + d.payload_offset
    · rw [(step_complete H E c d hcap hdone).1] at h
      exact done_state H E (with_buffer c (memcpy c.buffer d.payload_offset d.data_ptr d.data_len)
        (d.data_len + d.payload_offset)) d r h
    · rw [(step_incomplete H E c d hcap (by omega)).1] at h
      cases h
      exact ⟨rfl, Or.inl rfl⟩

theorem handle_state (H : gateway_header) (E : gateway_env) (c : discord_client)
    (p : discord_gateway_payload_t) (now : Nat) (r : esp_err_t × discord_client)
    (h : dcgw_handle_payload H E c (some p) now = some r) :
    (r.2.state = c.state ∧ r.2.session = c.session)
    ∨ (r.2.state = DISCORD_CLIENT_STATE_CONNECTED ∧ r.2.session ≠ none) := by
  by_cases hstate : c.state = DISCORD_CLIENT_STATE_DISCONNECTING
  · unfold dcgw_handle_payload at h
    simp only [if_pos hstate] at h
    by_cases hcode : dcgw_close_opcode H c = H.DISCORD_CLOSEOP_NO_CODE
    · rw [if_pos hcode] at h; cases h; exact Or.inl ⟨rfl, rfl⟩
    · rw [if_neg hcode] at h; cases h; exact Or.inl ⟨rfl, rfl⟩
  · unfold dcgw_handle_payload at h
    simp only [if_neg hstate] at h
    cases hop : p.op with
    | DISCORD_OP_HELLO =>
      simp only [hop] at h
      cases hs : dcgw_heartbeat_start c (as_hello p.d) now with
      | none => simp [hs] at h
      | some r1 =>
        obtain ⟨e1, c1⟩ := r1
        have hc1 : c1.state = c.state ∧ c1.session = c.session := by
          unfold dcgw_heartbeat_start at hs
          by_cases hrun : c.heartbeater.running = true
          · rw [if_pos hrun] at hs; cases hs; exact ⟨rfl, rfl⟩
          · rw [if_neg hrun] at hs
            cases hh : as_hello p.d with
            | none => simp [hh] at hs
            | some hello =>
              simp only [hh, Option.some.injEq, Prod.mk.injEq] at hs
              rw [← hs.2]
              exact ⟨rfl, rfl⟩
        simp only [hs, Option.some.injEq] at h
        subst h
        unfold dcgw_identify
        rw [send_fields]
        exact Or.inl hc1
    | DISCORD_OP_HEARTBEAT_ACK =>
      simp only [hop, Option.some.injEq] at h
      subst h
      exact Or.inl ⟨rfl, rfl⟩
    | DISCORD_OP_DISPATCH =>
      simp only [hop] at h
      cases hd : dcgw_dispatch c p with
      | none => simp [hd] at h
      | some r1 =>
        obtain ⟨e1, c1, p1⟩ := r1
        simp only [hd, Option.some.injEq] at h
        subst h
        show (c1.state = c.state ∧ c1.session = c.session)
          ∨ (c1.state = DISCORD_CLIENT_STATE_CONNECTED ∧ c1.session ≠ none)
        unfold dcgw_dispatch at hd
        by_cases hr : DISCORD_GATEWAY_EVENT_READY = p.t
        · rw [if_pos hr] at hd
          simp only [] at hd
          cases hs : as_session p.d with
          | none => simp [hs] at hd
          | some s =>
            simp only [hs, Option.some.injEq, Prod.mk.injEq] at hd
            rw [← hd.2.1]
            exact Or.inr ⟨rfl, by simp⟩
        · rw [if_neg hr] at hd
          revert hd
          split <;> intro hd <;> cases hd <;> exact Or.inl ⟨rfl, rfl⟩
    | DISCORD_OP_HEARTBEAT =>
      simp only [hop, Option.some.injEq] at h
      subst h
      exact Or.inl ⟨rfl, rfl⟩
    | DISCORD_OP_IDENTIFY =>
      simp only [hop, Option.some.injEq] at h
      subst h
      exact Or.inl ⟨rfl, rfl⟩
    | DISCORD_OP_OTHER n =>
      simp only [hop, Option.some.injEq] at h
      subst h
      exact Or.inl ⟨rfl, rfl⟩

theorem close_state (H : gateway_header) (c : discord_client) (reason : discord_close_reason_t) :
    (dcgw_close H c reason).2.state = c.state ∧ (dcgw_close H c reason).2.session = c.session := by
  cases h : dcgw_is_open H c with
  | false => rw [close_not_open H c reason h]; exact ⟨rfl, rfl⟩
  | true => rw [close_open H c reason h]; exact ⟨rfl, rfl⟩

theorem heartbeat_state (H : gateway_header) (E : gateway_env) (c : discord_client) (now : Nat) :
    (dcgw_heartbeat_send_if_expired H E c now).2.state = c.state
    ∧ (dcgw_heartbeat_send_if_expired H E c now).2.session = c.session := by
  cases hexp : dcgw_heartbeat_expired c now with
  | false => rw [send_if_not_expired H E c now hexp]; exact ⟨rfl, rfl⟩
  | true =>
    cases hack : c.heartbeater.received_ack with
    | true =>
      rw [send_if_expired_ack H E c now hexp hack, send_fields]
      exact ⟨rfl, rfl⟩
    | false =>
      rw [send_if_expired_noack H E c now hexp hack]
      exact close_state H _ _

theorem apply_invariant (H : gateway_header) (E : gateway_env) (c c' : discord_client)
    (op : gateway_operation)
    (hinv : c.state = DISCORD_CLIENT_STATE_CONNECTED → c.session ≠ none)
    (h : dcgw_apply H E c op = some c') :
    c'.state = DISCORD_CLIENT_STATE_CONNECTED → c'.session ≠ none := by
  cases op with
  | ws_event event_id data =>
    simp only [dcgw_apply] at h
    unfold dcgw_websocket_event_handler at h
    by_cases hpong : data.op_code = WS_TRANSPORT_OPCODES_PONG
    · rw [if_pos hpong] at h; cases h; exact hinv
    · rw [if_neg hpong] at h
      cases event_id with
      | WEBSOCKET_EVENT_DATA =>
        simp only [] at h
        by_cases hop : data.op_code = WS_TRANSPORT_OPCODES_TEXT
            ∨ data.op_code = WS_TRANSPORT_OPCODES_CLOSE
        · rw [if_pos hop] at h
          cases hstep : dcgw_buffer_websocket_data H E c data with
          | none => simp [hstep] at h
          | some r =>
            simp only [hstep, Option.map_some', Option.some.injEq] at h
            obtain ⟨h1, h2⟩ := step_state H E c data r hstep
            subst h
            intro hst
            rw [h1]
            rcases h2 with h2 | h2
            · exact hinv (h2 ▸ hst)
            · rw [h2] at hst; cases hst
        · rw [if_neg hop] at h; cases h; exact hinv
      | WEBSOCKET_EVENT_OTHER n => simp only [] at h; cases h; exact hinv
      | _ => simp only [] at h; cases h; intro hst; cases hst
  | start =>
    simp only [dcgw_apply, Option.some.injEq] at h
    subst h
    unfold dcgw_start
    split
    · exact hinv
    · intro hst; cases hst
  | close reason =>
    simp only [dcgw_apply, Option.some.injEq] at h
    subst h
    rw [(close_state H c reason).1, (close_state H c reason).2]
    exact hinv
  | heartbeat now =>
    simp only [dcgw_apply, Option.some.injEq] at h
    subst h
    rw [(heartbeat_state H E c now).1, (heartbeat_state H E c now).2]
    exact hinv
  | handle p now =>
    simp only [dcgw_apply] at h
    cases hh : dcgw_handle_payload H E c (some p) now with
    | none => simp [hh] at h
    | some r =>
      simp only [hh, Option.map_some', Option.some.injEq] at h
      subst h
      rcases handle_state H E c p now r hh with ⟨h1, h2⟩ | ⟨_, h2⟩
      · rw [h1, h2]; exact hinv
      · exact fun _ => h2

theorem run_invariant (H : gateway_header) (E : gateway_env) (ops : List gateway_operation) :
    ∀ (c c' : discord_client),
      (c.state = DISCORD_CLIENT_STATE_CONNECTED → c.session ≠ none) →
      dcgw_run H E c ops = some c' →
      (c'.state = DISCORD_CLIENT_STATE_CONNECTED → c'.session ≠ none) := by
  induction ops with
  | nil =>
    intro c c' hinv h
    simp only [dcgw_run, Option.some.injEq] at h
    subst h
    exact hinv
  | cons op rest ih =>
    intro c c' hinv h
    simp only [dcgw_run] at h
    cases hop : dcgw_apply H E c op with
    | none => simp [hop] at h
    | some c1 =>
      simp only [hop] at h
      exact ih c1 c' (apply_invariant H E c c1 op hinv hop) h

theorem filter_no_fault (H : gateway_header) (c : discord_client)
    (p : Option discord_gateway_payload_t)
    (hinv : c.state = DISCORD_CLIENT_STATE_CONNECTED → c.session ≠ none)
    (hstate : c.state ≠ DISCORD_CLIENT_STATE_DISCONNECTING) :
    dcgw_whether_payload_should_go_into_queue H c p ≠ none := by
  cases hs : c.session with
  | some s =>
    obtain ⟨b, hb⟩ := filter_some_of_session H c p (by rw [hs]; simp)
    rw [hb]; simp
  | none =>
    have hnc : c.state ≠ DISCORD_CLIENT_STATE_CONNECTED := fun h => hinv h hs
    have hlt : c.state.val H < DISCORD_CLIENT_STATE_CONNECTED.val H := by
      cases hst : c.state <;> simp_all [discord_client_state_t.val]
    unfold dcgw_whether_payload_should_go_into_queue
    cases p with
    | none => simp
    | some p =>
      simp only []
      by_cases hop : p.op = DISCORD_OP_DISPATCH
      · rw [if_pos hop]
        by_cases hr : p.t = DISCORD_GATEWAY_EVENT_READY
        · rw [if_neg (fun h => h.2 hr)]
          rw [if_neg (by rw [hr]; decide)]
          simp
        · rw [if_pos ⟨hlt, hr⟩]
          simp
      · rw [if_neg hop]
        simp

/-- Claim C17 (receive-buffer size floor). The copy made by `dc_config_copy` has
`buffer_size = max(config.buffer_size, 1024)`, hence at least `DISCORD_MIN_BUFFER_SIZE = 1024`
also for a zero or negative configured value, and the intents and token of the original. -/
theorem config_buffer_floor (config : discord_client_config_t) :
    (Legacy.dc_config_copy config).buffer_size = max config.buffer_size 1024
    ∧ (Legacy.dc_config_copy config).buffer_size ≥ DISCORD_MIN_BUFFER_SIZE
    ∧ DISCORD_MIN_BUFFER_SIZE = 1024
    ∧ (config.buffer_size ≤ 0 → (Legacy.dc_config_copy config).buffer_size = 1024)
    ∧ (Legacy.dc_config_copy config).intents = config.intents
    ∧ (Legacy.dc_config_copy config).token = config.token := by
  have hmin : DISCORD_MIN_BUFFER_SIZE = 1024 := rfl
  have hsize : (Legacy.dc_config_copy config).buffer_size
      = if config.buffer_size > 1024 then config.buffer_size else 1024 := rfl
  refine ⟨?_, ?_, hmin, ?_, rfl, rfl⟩
  · rw [hsize]
    by_cases h : config.buffer_size > 1024
    · rw [if_pos h]; omega
    · rw [if_neg h]; omega
  · rw [hsize, hmin]
    by_cases h : config.buffer_size > 1024
    · rw [if_pos h]; omega
    · rw [if_neg h]
  · intro hle
    rw [hsize, if_neg (by omega)]

/-- Claim C17 at a configured size of 0 and at 4096. -/
theorem config_buffer_floor_witness :
    (Legacy.dc_config_copy { token := "token", intents := 512, buffer_size := 0 }).buffer_size = 1024
    ∧ (Legacy.dc_config_copy { token := "token", intents := 512, buffer_size := 4096 }).buffer_size
        = 4096 := by
  constructor
  · exact (config_buffer_floor { token := "token", intents := 512, buffer_size := 0 }).2.2.2.1
      (by decide)
  · exact (config_buffer_floor { token := "token", intents := 512, buffer_size := 4096 }).1

theorem legacy_close_fields (H : gateway_header) (c : Legacy.discord_client)
    (reason : Legacy.discord_close_reason_t) :
    (Legacy.gw_close H c reason).1 = ESP_OK
    ∧ (Legacy.gw_close H c reason).2.close_reason
        = Legacy.discord_close_reason_t.DISCORD_CLOSE_REASON_NOT_REQUESTED
    ∧ (Legacy.gw_close H c reason).2.state
        = Legacy.discord_client_state_t.DISCORD_CLIENT_STATE_INIT := by
  unfold Legacy.gw_close
  exact ⟨rfl, rfl, rfl⟩

theorem done_prepare_more (c : discord_client) (d : esp_websocket_event_data_t) :
    (done_prepare c d).heartbeater = c.heartbeater ∧ (done_prepare c d).sent = c.sent := by
  unfold done_prepare
  simp only []
  split <;> exact ⟨rfl, rfl⟩

theorem track_sequence_more (H : gateway_header) (c : discord_client)
    (p : discord_gateway_payload_t) :
    (track_sequence H c p).heartbeater = c.heartbeater ∧ (track_sequence H c p).sent = c.sent := by
  unfold track_sequence
  split <;> exact ⟨rfl, rfl⟩

theorem done_heartbeater (H : gateway_header) (E : gateway_env) (c : discord_client)
    (d : esp_websocket_event_data_t) (r : esp_err_t × discord_client)
    (h : dcgw_buffer_websocket_data_done H E c d = some r) :
    r.2.heartbeater = c.heartbeater ∧ r.2.sent = c.sent := by
  rw [done_eq] at h
  have hp := done_prepare_more c d
  revert h
  split
  · intro h; cases h; exact hp
  · rename_i p _
    have ht := track_sequence_more H (done_prepare c d) p
    split
    · intro h; cases h
    · intro h; cases h
      exact ⟨ht.1.trans hp.1, ht.2.trans hp.2⟩
    · split <;> intro h <;> cases h <;> exact ⟨ht.1.trans hp.1, ht.2.trans hp.2⟩

theorem step_heartbeater (H : gateway_header) (E : gateway_env) (c : discord_client)
    (d : esp_websocket_event_data_t) (r : esp_err_t × discord_client)
    (h : dcgw_buffer_websocket_data H E c d = some r) :
    r.2.heartbeater = c.heartbeater ∧ r.2.sent = c.sent := by
  by_cases hbig : d.payload_len > c.config.buffer_size
  · rw [(step_fail H E c d hbig).1] at h
    cases h
    exact ⟨rfl, rfl⟩
  · have hcap : d.payload_len ≤ c.config.buffer_size := by omega
    by_cases hdone : d.payload_len ≤ d.data_len + d.payload_offset
    · rw [(step_complete H E c d hcap hdone).1] at h
      exact done_heartbeater H E (with_buffer c
        (memcpy c.buffer d.payload_offset d.data_ptr d.data_len)
        (d.data_len + d.payload_offset)) d r h
    · rw [(step_incomplete H E c d hcap (by omega)).1] at h
      cases h
      exact ⟨rfl, rfl⟩

theorem event_frame (H : gateway_header) (E : gateway_env) (c c' : discord_client)
    (event_id : esp_websocket_event_id_t) (data : esp_websocket_event_data_t)
    (h : dcgw_websocket_event_handler H E c event_id data = some c') :
    c'.heartbeater = c.heartbeater ∧ c'.sent = c.sent ∧ c'.config = c.config := by
  unfold dcgw_websocket_event_handler at h
  by_cases hpong : data.op_code = WS_TRANSPORT_OPCODES_PONG
  · rw [if_pos hpong] at h; cases h; exact ⟨rfl, rfl, rfl⟩
  · rw [if_neg hpong] at h
    cases event_id with
    | WEBSOCKET_EVENT_DATA =>
      simp only [] at h
      by_cases hop : data.op_code = WS_TRANSPORT_OPCODES_TEXT
          ∨ data.op_code = WS_TRANSPORT_OPCODES_CLOSE
      · rw [if_pos hop] at h
        cases hstep : dcgw_buffer_websocket_data H E c data with
        | none => simp [hstep] at h
        | some r =>
          simp only [hstep, Option.map_some', Option.some.injEq] at h
          obtain ⟨h1, h2⟩ := step_heartbeater H E c data r hstep
          obtain ⟨h3, _⟩ := step_frame H E c data r hstep
          subst h
          exact ⟨h1, h2, h3⟩
      · rw [if_neg hop] at h; cases h; exact ⟨rfl, rfl, rfl⟩
    | _ => simp only [] at h; cases h; exact ⟨rfl, rfl, rfl⟩

theorem start_frame (H : gateway_header) (E : gateway_env) (c : discord_client) :
    (dcgw_start H E c).2.heartbeater = c.heartbeater ∧ (dcgw_start H E c).2.sent = c.sent
    ∧ (dcgw_start H E c).2.config = c.config := by
  unfold dcgw_start
  split <;> exact ⟨rfl, rfl, rfl⟩

theorem close_config (H : gateway_header) (c : discord_client) (reason : discord_close_reason_t) :
    (dcgw_close H c reason).2.config = c.config := by
  cases h : dcgw_is_open H c with
  | false => rw [close_not_open H c reason h]
  | true => rw [close_open H c reason h]

theorem dispatch_config (c : discord_client) (p : discord_gateway_payload_t)
    (r : esp_err_t × discord_client × discord_gateway_payload_t)
    (h : dcgw_dispatch c p = some r) : r.2.1.config = c.config := by
  unfold dcgw_dispatch at h
  by_cases hr : DISCORD_GATEWAY_EVENT_READY = p.t
  · rw [if_pos hr] at h
    simp only [] at h
    cases hs : as_session p.d with
    | none => simp [hs] at h
    | some s =>
      simp only [hs, Option.some.injEq] at h
      subst h
      cases c.session <;> rfl
  · rw [if_neg hr] at h
    revert h
    split <;> intro h <;> cases h <;> rfl

theorem handle_fields (H : gateway_header) (E : gateway_env) (c : discord_client)
    (p : discord_gateway_payload_t) (now : Nat) (r : esp_err_t × discord_client)
    (hop : p.op ≠ DISCORD_OP_HELLO)
    (h : dcgw_handle_payload H E c (some p) now = some r) :
    r.2.heartbeater.running = c.heartbeater.running ∧ r.2.sent = c.sent
    ∧ r.2.config = c.config := by
  unfold dcgw_handle_payload at h
  simp only [] at h
  by_cases hstate : c.state = DISCORD_CLIENT_STATE_DISCONNECTING
  · rw [if_pos hstate] at h
    revert h
    split <;> intro h <;> cases h <;> exact ⟨rfl, rfl, rfl⟩
  · rw [if_neg hstate] at h
    cases hopc : p.op with
    | DISCORD_OP_HELLO => exact absurd hopc hop
    | DISCORD_OP_HEARTBEAT_ACK =>
      simp only [hopc, Option.some.injEq] at h
      subst h
      exact ⟨rfl, rfl, rfl⟩
    | DISCORD_OP_DISPATCH =>
      simp only [hopc] at h
      cases hd : dcgw_dispatch c p with
      | none => simp [hd] at h
      | some r1 =>
        obtain ⟨h1, h2, _⟩ := dispatch_frame c p r1 hd
        have h3 := dispatch_config c p r1 hd
        obtain ⟨e1, c1, p1⟩ := r1
        simp only [hd, Option.some.injEq] at h
        subst h
        exact ⟨congrArg discord_heartbeater_t.running h1, h2, h3⟩
    | DISCORD_OP_HEARTBEAT =>
      simp only [hopc, Option.some.injEq] at h
      subst h
      exact ⟨rfl, rfl, rfl⟩
    | DISCORD_OP_IDENTIFY =>
      simp only [hopc, Option.some.injEq] at h
      subst h
      exact ⟨rfl, rfl, rfl⟩
    | DISCORD_OP_OTHER n =>
      simp only [hopc, Option.some.injEq] at h
      subst h
      exact ⟨rfl, rfl, rfl⟩

theorem handle_ack_frame (H : gateway_header) (E : gateway_env) (c : discord_client)
    (p : discord_gateway_payload_t) (now : Nat) (r : esp_err_t × discord_client)
    (hrun : c.heartbeater.running = true)
    (h : dcgw_handle_payload H E c (some p) now = some r) :
    r.2.heartbeater = { c.heartbeater with
      received_ack := c.heartbeater.received_ack
        || (decide (p.op = DISCORD_OP_HEARTBEAT_ACK)
            && decide (c.state ≠ DISCORD_CLIENT_STATE_DISCONNECTING)) } := by
  by_cases hstate : c.state = DISCORD_CLIENT_STATE_DISCONNECTING
  · obtain ⟨c2, h1, h2, _⟩ := handle_disconnecting H E c p now hstate
    rw [h1] at h
    cases h
    show c2.heartbeater = _
    rw [h2]
    simp [hstate]
  · rw [(handle_frame H E c p now r hstate hrun h).2]
    simp [hstate]

theorem expired_ne (c : discord_client) (now : Nat) (h : dcgw_heartbeat_expired c now = true) :
    now ≠ c.heartbeater.tick_ms := by
  intro heq
  unfold dcgw_heartbeat_expired at h
  rw [heq] at h
  simp only [sub_self, Bool.and_eq_true, decide_eq_true_eq] at h
  have h2 := h.2
  have h3 : (0 : Int) % 2 ^ 64 = 0 := by norm_num
  rw [h3] at h2
  have h4 : 0 ≤ c.heartbeater.interval % 2 ^ 64 := Int.emod_nonneg _ (by norm_num)
  omega

theorem heartbeat_quiet (H : gateway_header) (E : gateway_env) (c : discord_client) (now : Nat)
    (hrun : (dcgw_heartbeat_send_if_expired H E c now).2.heartbeater.running = true)
    (htick : (dcgw_heartbeat_send_if_expired H E c now).2.heartbeater.tick_ms
      = c.heartbeater.tick_ms) :
    dcgw_heartbeat_send_if_expired H E c now = (ESP_OK, c) := by
  cases hexp : dcgw_heartbeat_expired c now with
  | false => exact send_if_not_expired H E c now hexp
  | true =>
    exfalso
    have hne := expired_ne c now hexp
    cases hack : c.heartbeater.received_ack with
    | true =>
      rw [send_if_expired_ack H E c now hexp hack, send_fields] at htick
      exact hne htick
    | false =>
      rw [send_if_expired_noack H E c now hexp hack] at htick hrun
      cases hopen : dcgw_is_open H
          { c with heartbeater := { c.heartbeater with tick_ms := now } } with
      | false =>
        rw [close_not_open H _ _ hopen] at htick
        exact hne htick
      | true =>
        rw [close_open H _ _ hopen] at hrun
        cases hrun

theorem apply_beating (H : gateway_header) (E : gateway_env) (c c' : discord_client)
    (op : gateway_operation) (hrun : c.heartbeater.running = true)
    (h : dcgw_apply H E c op = some c')
    (hrun2 : c'.heartbeater.running = true)
    (htick : c'.heartbeater.tick_ms = c.heartbeater.tick_ms) :
    c'.heartbeater = { c.heartbeater with
      received_ack := c.heartbeater.received_ack || dcgw_takes_ack c op } := by
  cases op with
  | ws_event event_id data =>
    simp only [dcgw_apply] at h
    rw [(event_frame H E c c' event_id data h).1]
    simp [dcgw_takes_ack]
  | start =>
    simp only [dcgw_apply, Option.some.injEq] at h
    subst h
    rw [(start_frame H E c).1]
    simp [dcgw_takes_ack]
  | close reason =>
    simp only [dcgw_apply, Option.some.injEq] at h
    subst h
    cases hopen : dcgw_is_open H c with
    | false =>
      rw [close_not_open H c reason hopen]
      simp [dcgw_takes_ack]
    | true =>
      rw [close_open H c reason hopen] at hrun2
      cases hrun2
  | heartbeat now =>
    simp only [dcgw_apply, Option.some.injEq] at h
    subst h
    rw [heartbeat_quiet H E c now hrun2 htick]
    simp [dcgw_takes_ack]
  | handle p now =>
    simp only [dcgw_apply] at h
    cases hh : dcgw_handle_payload H E c (some p) now with
    | none => simp [hh] at h
    | some r =>
      simp only [hh, Option.map_some', Option.some.injEq] at h
      subst h
      rw [handle_ack_frame H E c p now r hrun hh]
      rfl

theorem run_beating (H : gateway_header) (E : gateway_env) (ops : List gateway_operation) :
    ∀ (c c2 : discord_client), c.heartbeater.running = true →
      dcgw_run H E c ops = some c2 →
      (∀ s ∈ dcgw_run_states H E c ops,
        s.heartbeater.running = true ∧ s.heartbeater.tick_ms = c.heartbeater.tick_ms) →
      c2.heartbeater = { c.heartbeater with
        received_ack := c.heartbeater.received_ack || dcgw_ack_taken H E c ops } := by
  induction ops with
  | nil =>
    intro c c2 _ h _
    simp only [dcgw_run, Option.some.injEq] at h
    subst h
    simp [dcgw_ack_taken]
  | cons op rest ih =>
    intro c c2 hrun h hall
    simp only [dcgw_run] at h
    cases hop : dcgw_apply H E c op with
    | none => simp [hop] at h
    | some c1 =>
      simp only [hop] at h
      simp only [dcgw_run_states, hop, List.mem_cons, forall_eq_or_imp] at hall
      obtain ⟨⟨hr1, ht1⟩, hrest⟩ := hall
      have h1 := apply_beating H E c c1 op hrun hop hr1 ht1
      have h2 := ih c1 c2 hr1 h (fun s hs => by
        obtain ⟨a, b⟩ := hrest s hs
        exact ⟨a, b.trans ht1.symm⟩)
      rw [h2, h1]
      simp [dcgw_ack_taken, hop, Bool.or_assoc]

theorem ack_taken_iff (H : gateway_header) (E : gateway_env) (ops : List gateway_operation) :
    ∀ c : discord_client, dcgw_ack_taken H E c ops = true
      ↔ ∃ pre p t post c', ops = pre ++ gateway_operation.handle p t :: post
          ∧ p.op = DISCORD_OP_HEARTBEAT_ACK
          ∧ dcgw_run H E c pre = some c'
          ∧ c'.state ≠ DISCORD_CLIENT_STATE_DISCONNECTING := by
  induction ops with
  | nil =>
    intro c
    simp [dcgw_ack_taken]
  | cons op rest ih =>
    intro c
    constructor
    · intro h
      simp only [dcgw_ack_taken, Bool.or_eq_true] at h
      rcases h with h | h
      · cases op with
        | handle p t =>
          simp only [dcgw_takes_ack, Bool.and_eq_true, decide_eq_true_eq] at h
          exact ⟨[], p, t, rest, c, rfl, h.1, rfl, h.2⟩
        | _ => simp [dcgw_takes_ack] at h
      · cases hop : dcgw_apply H E c op with
        | none => simp [hop] at h
        | some c1 =>
          simp only [hop] at h
          obtain ⟨pre, p, t, post, c', h1, h2, h3, h4⟩ := (ih c1).mp h
          refine ⟨op :: pre, p, t, post, c', by rw [h1]; rfl, h2, ?_, h4⟩
          simp only [dcgw_run, hop]
          exact h3
    · rintro ⟨pre, p, t, post, c', h1, h2, h3, h4⟩
      simp only [dcgw_ack_taken, Bool.or_eq_true]
      cases pre with
      | nil =>
        simp only [List.nil_append, List.cons.injEq] at h1
        simp only [dcgw_run, Option.some.injEq] at h3
        subst h3
        left
        rw [h1.1]
        simp [dcgw_takes_ack, h2, h4]
      | cons op2 pre2 =>
        simp only [List.cons_append, List.cons.injEq] at h1
        obtain ⟨h1a, h1b⟩ := h1
        subst h1a
        right
        simp only [dcgw_run] at h3
        cases hop : dcgw_apply H E c op with
        | none => simp [hop] at h3
        | some c1 =>
          simp only [hop] at h3 ⊢
          exact (ih c1).mpr ⟨pre2, p, t, post, c', h1b, h2, h3, h4⟩

/-- Claim C6, amended (missed-ack detection). A client sends a heartbeat at an expiry (`now1`),
then goes through any gateway operations `ops` (transport events, `dcgw_start`, `dcgw_close`,
heartbeat checks, handled payloads) during which the heartbeater keeps running and does not
beat again, then reaches the next expiry (`now2`). The second expiry takes the close path with
reason `HEARTBEAT_ACK_NOT_RECEIVED` and sends nothing exactly when no HEARTBEAT_ACK was handled
by `dcgw_handle_payload` in a state other than `DISCONNECTING` in between
(`dcgw_ack_taken`, spelled out in the third part); otherwise it sends another heartbeat. -/
theorem missed_ack_detection (H : gateway_header) (E : gateway_env) (c c2 : discord_client)
    (now1 now2 : Nat) (ops : List gateway_operation)
    (hexp1 : dcgw_heartbeat_expired c now1 = true)
    (hack : c.heartbeater.received_ack = true)
    (hrun : dcgw_run H E (dcgw_heartbeat_send_if_expired H E c now1).2 ops = some c2)
    (hbeat : ∀ s ∈ dcgw_run_states H E (dcgw_heartbeat_send_if_expired H E c now1).2 ops,
      s.heartbeater.running = true ∧ s.heartbeater.tick_ms = now1)
    (hexp2 : dcgw_heartbeat_expired (dcgw_heartbeat_send_if_expired H E c now1).2 now2 = true) :
    dcgw_heartbeat_expired c2 now2 = true
    ∧ c2.heartbeater.received_ack
        = dcgw_ack_taken H E (dcgw_heartbeat_send_if_expired H E c now1).2 ops
    ∧ (dcgw_ack_taken H E (dcgw_heartbeat_send_if_expired H E c now1).2 ops = true
        ↔ ∃ pre p t post c', ops = pre ++ gateway_operation.handle p t :: post
            ∧ p.op = DISCORD_OP_HEARTBEAT_ACK
            ∧ dcgw_run H E (dcgw_heartbeat_send_if_expired H E c now1).2 pre = some c'
            ∧ c'.state ≠ DISCORD_CLIENT_STATE_DISCONNECTING)
    ∧ (dcgw_ack_taken H E (dcgw_heartbeat_send_if_expired H E c now1).2 ops = false →
        dcgw_heartbeat_send_if_expired H E c2 now2
          = dcgw_close H { c2 with heartbeater := { c2.heartbeater with tick_ms := now2 } }
              DISCORD_CLOSE_REASON_HEARTBEAT_ACK_NOT_RECEIVED
        ∧ (dcgw_heartbeat_send_if_expired H E c2 now2).2.sent = c2.sent
        ∧ (dcgw_is_open H c2 = true →
            (dcgw_heartbeat_send_if_expired H E c2 now2).2.close_reason
              = DISCORD_CLOSE_REASON_HEARTBEAT_ACK_NOT_RECEIVED))
    ∧ (dcgw_ack_taken H E (dcgw_heartbeat_send_if_expired H E c now1).2 ops = true →
        (dcgw_heartbeat_send_if_expired H E c2 now2).2.sent
          = c2.sent ++ [discord_model_gateway_payload H DISCORD_OP_HEARTBEAT
              (discord_gateway_payload_data_t.heartbeat c2.last_sequence_number)]
        ∧ (dcgw_heartbeat_send_if_expired H E c2 now2).2.close_reason = c2.close_reason)
    ∧ ((dcgw_heartbeat_send_if_expired H E c2 now2).2.sent = c2.sent
        ↔ dcgw_ack_taken H E (dcgw_heartbeat_send_if_expired H E c now1).2 ops = false) := by
  have hfirst := send_if_expired_ack H E c now1 hexp1 hack
  have hc1 : (dcgw_heartbeat_send_if_expired H E c now1).2
      = { c with
          heartbeater := { c.heartbeater with tick_ms := now1, received_ack := false }
          sent := c.sent ++ [discord_model_gateway_payload H DISCORD_OP_HEARTBEAT
            (discord_gateway_payload_data_t.heartbeat c.last_sequence_number)] } := by
    rw [hfirst, send_fields]
  have hrun1 : (dcgw_heartbeat_send_if_expired H E c now1).2.heartbeater.running = true := by
    rw [hc1]; exact expired_running c now1 hexp1
  have htick1 : (dcgw_heartbeat_send_if_expired H E c now1).2.heartbeater.tick_ms = now1 := by
    rw [hc1]
  have hhb := run_beating H E ops (dcgw_heartbeat_send_if_expired H E c now1).2 c2 hrun1 hrun
    (by rw [htick1]; exact hbeat)
  have hiff := ack_taken_iff H E ops (dcgw_heartbeat_send_if_expired H E c now1).2
  generalize dcgw_ack_taken H E (dcgw_heartbeat_send_if_expired H E c now1).2 ops = taken
    at hhb hiff ⊢
  have hexp : dcgw_heartbeat_expired c2 now2 = true := by
    rw [← hexp2]
    apply expired_congr <;> rw [hhb]
  have hackval : c2.heartbeater.received_ack = taken := by
    rw [hhb, hc1]; simp
  have hno : taken = false →
      dcgw_heartbeat_send_if_expired H E c2 now2
        = dcgw_close H { c2 with heartbeater := { c2.heartbeater with tick_ms := now2 } }
            DISCORD_CLOSE_REASON_HEARTBEAT_ACK_NOT_RECEIVED := by
    intro ht
    exact send_if_expired_noack H E c2 now2 hexp (hackval.trans ht)
  have hyes : taken = true →
      (dcgw_heartbeat_send_if_expired H E c2 now2).2
        = { c2 with
            heartbeater := { c2.heartbeater with tick_ms := now2, received_ack := false }
            sent := c2.sent ++ [discord_model_gateway_payload H DISCORD_OP_HEARTBEAT
              (discord_gateway_payload_data_t.heartbeat c2.last_sequence_number)] } := by
    intro ht
    rw [send_if_expired_ack H E c2 now2 hexp (hackval.trans ht), send_fields]
  refine ⟨hexp, hackval, ?_, ?_, ?_, ?_⟩
  · exact hiff
  · intro ht
    refine ⟨hno ht, ?_, ?_⟩
    · rw [hno ht, close_sent]
    · intro hopen
      rw [hno ht, close_open H
        { c2 with heartbeater := { c2.heartbeater with tick_ms := now2 } } _ hopen]
  · intro ht
    rw [hyes ht]
    exact ⟨rfl, rfl⟩
  · constructor
    · intro hsent
      cases ht : taken with
      | false => rfl
      | true =>
        rw [hyes ht] at hsent
        simp at hsent
    · intro ht
      rw [hno ht, close_sent]

/-- Claim C6 (amended) at a connected client between the expiries at ticks 11 and 22: an
acknowledgment handled before a close frame arrives is counted and the second expiry sends
another heartbeat; an acknowledgment handled after the close frame, in state `DISCONNECTING`,
is not, and the second expiry takes the close path. -/
theorem missed_ack_detection_witness :
    dcgw_heartbeat_expired beating_client 11 = true
    ∧ (∃ c2, dcgw_run example_header example_env
          (dcgw_heartbeat_send_if_expired example_header example_env beating_client 11).2
          [gateway_operation.handle ack_payload 12,
            gateway_operation.ws_event WEBSOCKET_EVENT_DATA close_frame] = some c2
        ∧ (dcgw_heartbeat_send_if_expired example_header example_env c2 22).2.sent
          = c2.sent ++ [discord_model_gateway_payload example_header DISCORD_OP_HEARTBEAT
              (discord_gateway_payload_data_t.heartbeat c2.last_sequence_number)])
    ∧ (∃ c2, dcgw_run example_header example_env
          (dcgw_heartbeat_send_if_expired example_header example_env beating_client 11).2
          [gateway_operation.ws_event WEBSOCKET_EVENT_DATA close_frame,
            gateway_operation.handle ack_payload 12] = some c2
        ∧ (dcgw_heartbeat_send_if_expired example_header example_env c2 22).2.sent = c2.sent
        ∧ dcgw_heartbeat_send_if_expired example_header example_env c2 22
          = dcgw_close example_header
              { c2 with heartbeater := { c2.heartbeater with tick_ms := 22 } }
              DISCORD_CLOSE_REASON_HEARTBEAT_ACK_NOT_RECEIVED) := by
  refine ⟨by decide, ?_, ?_⟩
  · obtain ⟨c2, h⟩ := Option.isSome_iff_exists.mp
      (show (dcgw_run example_header example_env
        (dcgw_heartbeat_send_if_expired example_header example_env beating_client 11).2
        [gateway_operation.handle ack_payload 12,
          gateway_operation.ws_event WEBSOCKET_EVENT_DATA close_frame]).isSome = true by decide)
    exact ⟨c2, h, ((missed_ack_detection example_header example_env beating_client c2 11 22
      [gateway_operation.handle ack_payload 12,
        gateway_operation.ws_event WEBSOCKET_EVENT_DATA close_frame]
      (by decide) rfl h (by decide) (by decide)).2.2.2.2.1 (by decide)).1⟩
  · obtain ⟨c2, h⟩ := Option.isSome_iff_exists.mp
      (show (dcgw_run example_header example_env
        (dcgw_heartbeat_send_if_expired example_header example_env beating_client 11).2
        [gateway_operation.ws_event WEBSOCKET_EVENT_DATA close_frame,
          gateway_operation.handle ack_payload 12]).isSome = true by decide)
    have hh := (missed_ack_detection example_header example_env beating_client c2 11 22
      [gateway_operation.ws_event WEBSOCKET_EVENT_DATA close_frame,
        gateway_operation.handle ack_payload 12]
      (by decide) rfl h (by decide) (by decide)).2.2.2.1 (by decide)
    exact ⟨c2, h, hh.2.1, hh.1⟩

theorem trace_tail (H : gateway_header) (pre : List discord_client) (ts : discord_client)
    (p : discord_gateway_payload_t) :
    (match dcgw_whether_payload_should_go_into_queue H ts (some p) with
      | none => pre ++ [ts]
      | some false => pre ++ [ts, release_payload ts p]
      | some true =>
        match xQueueSend ts p with
        | (true, c6) => pre ++ [ts, c6]
        | (false, c6) => pre ++ [ts, c6, release_payload c6 p])
      = pre ++ ts ::
          (match dcgw_whether_payload_should_go_into_queue H ts (some p) with
            | none => []
            | some false => [release_payload ts p]
            | some true =>
              if ts.queue.length < ts.queue_size then [(xQueueSend ts p).2]
              else [(xQueueSend ts p).2, release_payload ts p]) := by
  cases dcgw_whether_payload_should_go_into_queue H ts (some p) with
  | none => simp
  | some b =>
    cases b with
    | false => simp
    | true =>
      by_cases hq : ts.queue.length < ts.queue_size
      · simp only [xQueueSend, if_pos hq]
      · simp only [xQueueSend, if_neg hq]

theorem trace_eq (H : gateway_header) (E : gateway_env) (c : discord_client)
    (d : esp_websocket_event_data_t) (entry : discord_client) (p : discord_gateway_payload_t)
    (hs : dcgw_buffer_websocket_data_store c d = some (entry, true))
    (hd : E.deserialize (buffer_span (done_prepare entry d).buffer (done_prepare entry d).buffer_len)
      = some p) :
    dcgw_buffer_websocket_data_trace H E c d
      = [c, { c with buffer := memcpy c.buffer d.payload_offset d.data_ptr d.data_len }, entry,
          (if d.op_code = WS_TRANSPORT_OPCODES_CLOSE then
            { entry with state := DISCORD_CLIENT_STATE_DISCONNECTING } else entry),
          done_prepare entry d]
        ++ track_sequence H (done_prepare entry d) p ::
          (match dcgw_whether_payload_should_go_into_queue H
              (track_sequence H (done_prepare entry d) p) (some p) with
            | none => []
            | some false => [release_payload (track_sequence H (done_prepare entry d) p) p]
            | some true =>
              if (track_sequence H (done_prepare entry d) p).queue.length
                  < (track_sequence H (done_prepare entry d) p).queue_size then
                [(xQueueSend (track_sequence H (done_prepare entry d) p) p).2]
              else
                [(xQueueSend (track_sequence H (done_prepare entry d) p) p).2,
                  release_payload (track_sequence H (done_prepare entry d) p) p]) := by
  obtain ⟨hle, hentry⟩ := store_some c d entry true hs
  have hflag : d.data_len + d.payload_offset ≥ d.payload_len := by
    rw [store_eq c d hle] at hs
    simp only [Option.some.injEq, Prod.mk.injEq, decide_eq_true_eq] at hs
    exact hs.2
  subst hentry
  unfold dcgw_buffer_websocket_data_trace
  rw [if_neg (by omega)]
  simp only []
  rw [if_pos hflag]
  show (match E.deserialize (buffer_span
        (done_prepare (with_buffer c (memcpy c.buffer d.payload_offset d.data_ptr d.data_len)
          (d.data_len + d.payload_offset)) d).buffer
        (done_prepare (with_buffer c (memcpy c.buffer d.payload_offset d.data_ptr d.data_len)
          (d.data_len + d.payload_offset)) d).buffer_len) with
    | none => _
    | some payload =>
      match dcgw_whether_payload_should_go_into_queue H
          (track_sequence H (done_prepare (with_buffer c
            (memcpy c.buffer d.payload_offset d.data_ptr d.data_len)
            (d.data_len + d.payload_offset)) d) payload) (some payload) with
      | none => _
      | some false => _
      | some true => _) = _
  rw [hd]
  exact trace_tail H
    [c, { c with buffer := memcpy c.buffer d.payload_offset d.data_ptr d.data_len },
      with_buffer c (memcpy c.buffer d.payload_offset d.data_ptr d.data_len)
        (d.data_len + d.payload_offset),
      (if d.op_code = WS_TRANSPORT_OPCODES_CLOSE then
        { with_buffer c (memcpy c.buffer d.payload_offset d.data_ptr d.data_len)
            (d.data_len + d.payload_offset) with state := DISCORD_CLIENT_STATE_DISCONNECTING }
        else with_buffer c (memcpy c.buffer d.payload_offset d.data_ptr d.data_len)
            (d.data_len + d.payload_offset)),
      done_prepare (with_buffer c (memcpy c.buffer d.payload_offset d.data_ptr d.data_len)
        (d.data_len + d.payload_offset)) d]
    (track_sequence H (done_prepare (with_buffer c
      (memcpy c.buffer d.payload_offset d.data_ptr d.data_len)
      (d.data_len + d.payload_offset)) d) p) p

theorem trace_last (H : gateway_header) (E : gateway_env) (c : discord_client)
    (d : esp_websocket_event_data_t) (r : esp_err_t × discord_client)
    (h : dcgw_buffer_websocket_data H E c d = some r) :
    (dcgw_buffer_websocket_data_trace H E c d).getLast? = some r.2 := by
  by_cases hbig : d.payload_len > c.config.buffer_size
  · rw [(step_fail H E c d hbig).1] at h
    cases h
    unfold dcgw_buffer_websocket_data_trace
    rw [if_pos hbig]
    rfl
  · have hcap : d.payload_len ≤ c.config.buffer_size := by omega
    by_cases hdone : d.payload_len ≤ d.data_len + d.payload_offset
    · rw [(step_complete H E c d hcap hdone).1, done_eq] at h
      have hstore : dcgw_buffer_websocket_data_store c d
          = some (with_buffer c (memcpy c.buffer d.payload_offset d.data_ptr d.data_len)
              (d.data_len + d.payload_offset), true) := by
        rw [store_eq c d hcap]
        simp only [Option.some.injEq, Prod.mk.injEq, decide_eq_true_eq, true_and]
        exact hdone
      cases hdec : E.deserialize (buffer_span
          (done_prepare (with_buffer c (memcpy c.buffer d.payload_offset d.data_ptr d.data_len)
            (d.data_len + d.payload_offset)) d).buffer
          (done_prepare (with_buffer c (memcpy c.buffer d.payload_offset d.data_ptr d.data_len)
            (d.data_len + d.payload_offset)) d).buffer_len) with
      | none =>
        rw [hdec] at h
        cases h
        unfold dcgw_buffer_websocket_data_trace
        rw [if_neg hbig]
        simp only []
        rw [if_pos hdone]
        show List.getLast? (match E.deserialize (buffer_span
            (done_prepare (with_buffer c (memcpy c.buffer d.payload_offset d.data_ptr d.data_len)
              (d.data_len + d.payload_offset)) d).buffer
            (done_prepare (with_buffer c (memcpy c.buffer d.payload_offset d.data_ptr d.data_len)
              (d.data_len + d.payload_offset)) d).buffer_len) with
          | none => _
          | some payload => _) = _
        rw [hdec]
        rfl
      | some p =>
        rw [hdec] at h
        rw [trace_eq H E c d _ p hstore hdec]
        revert h
        simp only []
        cases dcgw_whether_payload_should_go_into_queue H
            (track_sequence H (done_prepare (with_buffer c
              (memcpy c.buffer d.payload_offset d.data_ptr d.data_len)
              (d.data_len + d.payload_offset)) d) p) (some p) with
        | none => intro h; cases h
        | some b =>
          cases b with
          | false => intro h; cases h; simp
          | true =>
            by_cases hq : (track_sequence H (done_prepare (with_buffer c
                (memcpy c.buffer d.payload_offset d.data_ptr d.data_len)
                (d.data_len + d.payload_offset)) d) p).queue.length
                < (track_sequence H (done_prepare (with_buffer c
                (memcpy c.buffer d.payload_offset d.data_ptr d.data_len)
                (d.data_len + d.payload_offset)) d) p).queue_size
            · simp only [if_pos hq]
              intro h; cases h
              simp [xQueueSend, hq]
            · simp only [if_neg hq]
              intro h; cases h
              simp
    · rw [(step_incomplete H E c d hcap (by omega)).1] at h
      cases h
      unfold dcgw_buffer_websocket_data_trace
      rw [if_neg hbig]
      simp only []
      rw [if_neg (by omega)]
      rfl

theorem apply_stopped (H : gateway_header) (E : gateway_env) (c c' : discord_client)
    (op : gateway_operation) (hrun : c.heartbeater.running = false)
    (hop : dcgw_handles_hello op = false)
    (h : dcgw_apply H E c op = some c') :
    c'.heartbeater.running = false ∧ c'.sent = c.sent ∧ c'.config = c.config := by
  cases op with
  | ws_event event_id data =>
    simp only [dcgw_apply] at h
    obtain ⟨h1, h2, h3⟩ := event_frame H E c c' event_id data h
    exact ⟨by rw [h1]; exact hrun, h2, h3⟩
  | start =>
    simp only [dcgw_apply, Option.some.injEq] at h
    subst h
    obtain ⟨h1, h2, h3⟩ := start_frame H E c
    exact ⟨by rw [h1]; exact hrun, h2, h3⟩
  | close reason =>
    simp only [dcgw_apply, Option.some.injEq] at h
    subst h
    refine ⟨?_, close_sent H c reason, close_config H c reason⟩
    cases hopen : dcgw_is_open H c with
    | false => rw [close_not_open H c reason hopen]; exact hrun
    | true => rw [close_open H c reason hopen]
  | heartbeat now =>
    simp only [dcgw_apply, Option.some.injEq] at h
    subst h
    have hexp : dcgw_heartbeat_expired c now = false := by
      unfold dcgw_heartbeat_expired
      rw [hrun]
      rfl
    rw [send_if_not_expired H E c now hexp]
    exact ⟨hrun, rfl, rfl⟩
  | handle p now =>
    simp only [dcgw_apply] at h
    simp only [dcgw_handles_hello, decide_eq_false_iff_not] at hop
    cases hh : dcgw_handle_payload H E c (some p) now with
    | none => simp [hh] at h
    | some r =>
      simp only [hh, Option.map_some', Option.some.injEq] at h
      subst h
      obtain ⟨h1, h2, h3⟩ := handle_fields H E c p now r hop hh
      exact ⟨by rw [h1]; exact hrun, h2, h3⟩

theorem run_stopped (H : gateway_header) (E : gateway_env) (ops : List gateway_operation) :
    ∀ (c c2 : discord_client), c.heartbeater.running = false →
      (∀ op ∈ ops, dcgw_handles_hello op = false) →
      dcgw_run H E c ops = some c2 →
      c2.heartbeater.running = false ∧ c2.sent = c.sent ∧ c2.config = c.config := by
  induction ops with
  | nil =>
    intro c c2 hrun _ h
    simp only [dcgw_run, Option.some.injEq] at h
    subst h
    exact ⟨hrun, rfl, rfl⟩
  | cons op rest ih =>
    intro c c2 hrun hall h
    simp only [dcgw_run] at h
    cases hop : dcgw_apply H E c op with
    | none => simp [hop] at h
    | some c1 =>
      simp only [hop] at h
      obtain ⟨h1, h2, h3⟩ := apply_stopped H E c c1 op hrun
        (hall op (List.mem_cons_self _ _)) hop
      obtain ⟨g1, g2, g3⟩ := ih c1 c2 h1 (fun o ho => hall o (List.mem_cons_of_mem _ ho)) h
      exact ⟨g1, g2.trans h2, g3.trans h3⟩

/-- Claim C10, amended (reconnect resets state). After `dcgw_close` on an open client, for every
reason, the heartbeater is stopped, `last_sequence_number` is the null sentinel and
`buffer_len` is 0. Let any gateway operations `ops` other than the handling of a Hello follow
(none, in particular), and then a Hello with interval `I` be handled. If the client is not in
state `DISCONNECTING` at that point, the Hello starts the heartbeater with interval `I` and
hands exactly one payload to `dcgw_send`: the Identify built from `config.token` and
`config.intents` (a body with no session id and no sequence). In state `DISCONNECTING` the
Hello is not acted on: the heartbeater stays stopped and nothing is sent. -/
theorem reconnect_resets_state (H : gateway_header) (E : gateway_env) (c c2 : discord_client)
    (reason : discord_close_reason_t) (I : Int) (now : Nat) (p : discord_gateway_payload_t)
    (ops : List gateway_operation)
    (hopen : dcgw_is_open H c = true) (hop : p.op = DISCORD_OP_HELLO)
    (hd : p.d = some (discord_gateway_payload_data_t.hello { heartbeat_interval := I }))
    (hquiet : ∀ op ∈ ops, dcgw_handles_hello op = false)
    (hrun : dcgw_run H E (dcgw_close H c reason).2 ops = some c2) :
    (dcgw_close H c reason).1 = ESP_OK
    ∧ (dcgw_close H c reason).2.heartbeater
        = { running := false, interval := 0, tick_ms := 0, received_ack := false }
    ∧ (dcgw_close H c reason).2.last_sequence_number = H.DISCORD_NULL_SEQUENCE_NUMBER
    ∧ (dcgw_close H c reason).2.buffer_len = 0
    ∧ (dcgw_close H c reason).2.close_reason = reason
    ∧ (dcgw_close H c reason).2.state = c.state
    ∧ (c2.state ≠ DISCORD_CLIENT_STATE_DISCONNECTING →
        ∃ c3, dcgw_handle_payload H E c2 (some p) now = some (ESP_OK, c3)
          ∧ c3.heartbeater = { running := true, interval := I, tick_ms := now, received_ack := true }
          ∧ c3.sent = c.sent ++ [discord_model_gateway_payload H DISCORD_OP_IDENTIFY
              (discord_gateway_payload_data_t.identify
                { token := c.config.token
                  intents := c.config.intents
                  properties := { os := "freertos", browser := "esp-idf", device := "esp32" } })])
    ∧ (c2.state = DISCORD_CLIENT_STATE_DISCONNECTING →
        ∃ c3, dcgw_handle_payload H E c2 (some p) now = some (ESP_OK, c3)
          ∧ c3.heartbeater = c2.heartbeater
          ∧ c3.heartbeater.running = false
          ∧ c3.sent = c.sent)
    ∧ (ops = [] → c2.state = c.state) := by
  have hstop : (dcgw_close H c reason).2.heartbeater.running = false := by
    rw [close_open H c reason hopen]
  obtain ⟨g1, g2, g3⟩ := run_stopped H E ops (dcgw_close H c reason).2 c2 hstop hquiet hrun
  rw [close_sent] at g2
  rw [close_config] at g3
  refine ⟨?_, ?_, ?_, ?_, ?_, ?_, ?_, ?_, ?_⟩
  · rw [close_open H c reason hopen]
  · rw [close_open H c reason hopen]
  · rw [close_open H c reason hopen]
  · rw [close_open H c reason hopen]
  · rw [close_open H c reason hopen]
  · rw [close_open H c reason hopen]
  · intro hstate
    obtain ⟨c3, h1, _, _, h4, h5, _⟩ := handle_hello H E c2 p I now hstate hop hd
    refine ⟨c3, h1, h5 g1, ?_⟩
    rw [h4, g2, g3]
  · intro hstate
    obtain ⟨c3, h1, h2, h3⟩ := handle_disconnecting H E c2 p now hstate
    exact ⟨c3, h1, h2, by rw [h2]; exact g1, h3.trans g2⟩
  · intro hnil
    subst hnil
    simp only [dcgw_run, Option.some.injEq] at hrun
    subst hrun
    exact (close_state H c reason).1

/-- Claim C10 as stated fails whatever the numbering of the states: the connected example client
is open; after `dcgw_close` the close frame of the peer arrives and puts the client in state
`DISCONNECTING`, and the Hello handled next leaves the heartbeater stopped and sends no
Identify. Evaluated with `DISCONNECTING` numbered after `CONNECTED`, with `DISCONNECTING`
numbered below every other state, and proved for every header. -/
theorem hello_ignored_after_close_frame :
    (dcgw_is_open example_header beating_client = true
      ∧ (dcgw_run example_header example_env
          (dcgw_close example_header beating_client DISCORD_CLOSE_REASON_RECONNECT).2
          [gateway_operation.ws_event WEBSOCKET_EVENT_DATA close_frame]).bind
          (fun c2 => (dcgw_handle_payload example_header example_env c2 (some hello_payload) 7).map
            (fun r => (r.1, c2.state, r.2.heartbeater.running, r.2.sent)))
          = some (ESP_OK, DISCORD_CLIENT_STATE_DISCONNECTING, false, []))
    ∧ (dcgw_is_open low_header beating_client = true
      ∧ (dcgw_run low_header example_env
          (dcgw_close low_header beating_client DISCORD_CLOSE_REASON_RECONNECT).2
          [gateway_operation.ws_event WEBSOCKET_EVENT_DATA close_frame]).bind
          (fun c2 => (dcgw_handle_payload low_header example_env c2 (some hello_payload) 7).map
            (fun r => (r.1, c2.state, r.2.heartbeater.running, r.2.sent)))
          = some (ESP_OK, DISCORD_CLIENT_STATE_DISCONNECTING, false, []))
    ∧ ∀ H : gateway_header,
        dcgw_is_open H beating_client = true
        ∧ (dcgw_run H example_env
            (dcgw_close H beating_client DISCORD_CLOSE_REASON_RECONNECT).2
            [gateway_operation.ws_event WEBSOCKET_EVENT_DATA close_frame]).bind
            (fun c2 => (dcgw_handle_payload H example_env c2 (some hello_payload) 7).map
              (fun r => (r.1, c2.state, r.2.heartbeater.running, r.2.sent)))
            = some (ESP_OK, DISCORD_CLIENT_STATE_DISCONNECTING, false, []) := by
  refine ⟨⟨by decide, by decide⟩, ⟨by decide, by decide⟩, ?_⟩
  intro H
  refine ⟨rfl, ?_⟩
  have e1 : (dcgw_run H example_env
      (dcgw_close H beating_client DISCORD_CLOSE_REASON_RECONNECT).2
      [gateway_operation.ws_event WEBSOCKET_EVENT_DATA close_frame]).map
      (fun c => (c.state, c.heartbeater.running, c.sent))
      = some (DISCORD_CLIENT_STATE_DISCONNECTING, false, []) := rfl
  cases hrun : dcgw_run H example_env
      (dcgw_close H beating_client DISCORD_CLOSE_REASON_RECONNECT).2
      [gateway_operation.ws_event WEBSOCKET_EVENT_DATA close_frame] with
  | none => rw [hrun] at e1; cases e1
  | some c2 =>
    rw [hrun] at e1
    simp only [Option.map_some', Option.some.injEq, Prod.mk.injEq] at e1
    obtain ⟨s1, s2, s3⟩ := e1
    obtain ⟨c3, h1, h2, h3⟩ := handle_disconnecting H example_env c2 hello_payload 7 s1
    simp only [Option.some_bind, h1, Option.map_some', h2, h3, s1, s2, s3]

/-- Claim C10 (amended) at the connected client, Hello with interval 500 at tick 7: handled right
after the close, and handled after the transport has reported the disconnection and the
client has been started again. -/
theorem reconnect_resets_state_witness :
    dcgw_is_open example_header beating_client = true
    ∧ (dcgw_close example_header beating_client DISCORD_CLOSE_REASON_RECONNECT).2.heartbeater
        = { running := false, interval := 0, tick_ms := 0, received_ack := false }
    ∧ (dcgw_close example_header beating_client DISCORD_CLOSE_REASON_RECONNECT).2.buffer_len = 0
    ∧ (∃ c3, dcgw_handle_payload example_header example_env
          (dcgw_close example_header beating_client DISCORD_CLOSE_REASON_RECONNECT).2
          (some hello_payload) 7 = some (ESP_OK, c3)
        ∧ c3.heartbeater = { running := true, interval := 500, tick_ms := 7, received_ack := true }
        ∧ c3.sent = [discord_model_gateway_payload example_header DISCORD_OP_IDENTIFY
            (discord_gateway_payload_data_t.identify
              { token := "token"
                intents := 512
                properties := { os := "freertos", browser := "esp-idf", device := "esp32" } })])
    ∧ ∃ c2 c3, dcgw_run example_header example_env
          (dcgw_close example_header beating_client DISCORD_CLOSE_REASON_RECONNECT).2
          [gateway_operation.ws_event WEBSOCKET_EVENT_DATA close_frame,
            gateway_operation.ws_event WEBSOCKET_EVENT_DISCONNECTED no_data,
            gateway_operation.start,
            gateway_operation.ws_event WEBSOCKET_EVENT_CONNECTED no_data] = some c2
        ∧ dcgw_handle_payload example_header example_env c2 (some hello_payload) 7
            = some (ESP_OK, c3)
        ∧ c3.heartbeater = { running := true, interval := 500, tick_ms := 7, received_ack := true }
        ∧ c3.sent = [discord_model_gateway_payload example_header DISCORD_OP_IDENTIFY
            (discord_gateway_payload_data_t.identify
              { token := "token"
                intents := 512
                properties := { os := "freertos", browser := "esp-idf", device := "esp32" } })] := by
  have h := reconnect_resets_state example_header example_env beating_client
    (dcgw_close example_header beating_client DISCORD_CLOSE_REASON_RECONNECT).2
    DISCORD_CLOSE_REASON_RECONNECT 500 7 hello_payload [] (by decide) rfl rfl
    (by simp) rfl
  refine ⟨by decide, h.2.1, h.2.2.2.1, h.2.2.2.2.2.2.1 (by decide), ?_⟩
  obtain ⟨c2, hc2⟩ := Option.isSome_iff_exists.mp
    (show (dcgw_run example_header example_env
      (dcgw_close example_header beating_client DISCORD_CLOSE_REASON_RECONNECT).2
      [gateway_operation.ws_event WEBSOCKET_EVENT_DATA close_frame,
        gateway_operation.ws_event WEBSOCKET_EVENT_DISCONNECTED no_data,
        gateway_operation.start,
        gateway_operation.ws_event WEBSOCKET_EVENT_CONNECTED no_data]).isSome = true by decide)
  have hst : c2.state ≠ DISCORD_CLIENT_STATE_DISCONNECTING := by
    have e : (dcgw_run example_header example_env
      (dcgw_close example_header beating_client DISCORD_CLOSE_REASON_RECONNECT).2
      [gateway_operation.ws_event WEBSOCKET_EVENT_DATA close_frame,
        gateway_operation.ws_event WEBSOCKET_EVENT_DISCONNECTED no_data,
        gateway_operation.start,
        gateway_operation.ws_event WEBSOCKET_EVENT_CONNECTED no_data]).map (fun c => c.state)
        = some DISCORD_CLIENT_STATE_CONNECTING := by decide
    rw [hc2] at e
    simp only [Option.map_some', Option.some.injEq] at e
    rw [e]
    decide
  obtain ⟨c3, g1, g2, g3⟩ := (reconnect_resets_state example_header example_env beating_client
    c2 DISCORD_CLOSE_REASON_RECONNECT 500 7 hello_payload _ (by decide) rfl rfl
    (by decide) hc2).2.2.2.2.2.2.1 hst
  exact ⟨c2, c3, hc2, g1, g2, g3⟩

/-- In every client state reached from `dcgw_init` by a sequence of gateway operations (an absent
READY body faults and ends the run), `state == CONNECTED` implies that the session is present,
and in every such state other than `DISCONNECTING` the filter returns: where it reaches the
comparison of the author id with the session user id, the session exists. -/
theorem connected_session_present (H : gateway_header) (E : gateway_env) (c0 c : discord_client)
    (ops : List gateway_operation)
    (hrun : dcgw_run H E (dcgw_init H c0).2 ops = some c) :
    (c.state = DISCORD_CLIENT_STATE_CONNECTED → c.session ≠ none)
    ∧ (c.state ≠ DISCORD_CLIENT_STATE_DISCONNECTING →
        ∀ p, ∃ b, dcgw_whether_payload_should_go_into_queue H c p = some b) := by
  have hinit : (dcgw_init H c0).2.state = DISCORD_CLIENT_STATE_CONNECTED →
      (dcgw_init H c0).2.session ≠ none := by
    intro h
    cases h
  have hinv := run_invariant H E ops (dcgw_init H c0).2 c hinit hrun
  refine ⟨hinv, ?_⟩
  intro hstate p
  have hne := filter_no_fault H c p hinv hstate
  cases hf : dcgw_whether_payload_should_go_into_queue H c p with
  | none => exact absurd hf hne
  | some b => exact ⟨b, rfl⟩

/-- The filter in state `DISCONNECTING` without a session, for a message-create or message-update
dispatch with message, content and author present: it returns `false` at the guard of line 70
when `DISCONNECTING` is numbered below `CONNECTED`, and otherwise reaches the comparison of
line 81 and faults. -/
theorem filter_while_disconnecting (H : gateway_header) (c : discord_client)
    (p : discord_gateway_payload_t) (msg : discord_message_t) (content : String)
    (author : discord_user_t)
    (hstate : c.state = DISCORD_CLIENT_STATE_DISCONNECTING) (hs : c.session = none)
    (hop : p.op = DISCORD_OP_DISPATCH)
    (ht : p.t = DISCORD_GATEWAY_EVENT_MESSAGE_CREATE ∨ p.t = DISCORD_GATEWAY_EVENT_MESSAGE_UPDATE)
    (hd : as_message p.d = some msg) (hcontent : msg.content = some content)
    (hauthor : msg.author = some author) :
    dcgw_whether_payload_should_go_into_queue H c (some p)
      = if H.DISCORD_CLIENT_STATE_DISCONNECTING
            < discord_client_state_t.val H DISCORD_CLIENT_STATE_CONNECTED then some false
        else none := by
  have hnr : p.t ≠ DISCORD_GATEWAY_EVENT_READY := by
    rcases ht with h | h <;> rw [h] <;> decide
  unfold dcgw_whether_payload_should_go_into_queue
  simp only [hop, if_true, hstate, discord_client_state_t.val]
  by_cases hlt : H.DISCORD_CLIENT_STATE_DISCONNECTING < 3
  · rw [if_pos ⟨hlt, hnr⟩, if_pos hlt]
  · rw [if_neg (fun h => hlt h.1), if_pos ht, if_neg hlt]
    simp only [hd, hcontent, hauthor, hs]

/-- A run that reaches state `DISCONNECTING` without a session, for every header: `dcgw_init`,
`dcgw_start`, the connected event of the transport and a close frame. -/
theorem disconnecting_without_session (H : gateway_header) :
    (dcgw_run H example_env (dcgw_init H example_client).2
      [gateway_operation.start,
        gateway_operation.ws_event WEBSOCKET_EVENT_CONNECTED no_data,
        gateway_operation.ws_event WEBSOCKET_EVENT_DATA close_frame]).map
      (fun c => (c.state, c.session)) = some (DISCORD_CLIENT_STATE_DISCONNECTING, none) := by
  cases hopen : dcgw_is_open H (dcgw_init H example_client).2 with
  | false =>
    simp only [dcgw_run, dcgw_apply, dcgw_start, hopen]
    rfl
  | true =>
    simp only [dcgw_run, dcgw_apply, dcgw_start, hopen]
    rfl

theorem legacy_logout_session (H : gateway_header) (null_safe : Bool) (c : Legacy.discord_client)
    (s : discord_gateway_session_t) (hs : c.session = some s) :
    ∃ c1, Legacy.discord_logout H null_safe (some c) = some (ESP_OK, some c1)
      ∧ c1.state = Legacy.discord_client_state_t.DISCORD_CLIENT_STATE_UNKNOWN
      ∧ c1.running = false
      ∧ c1.session = none
      ∧ c1.heartbeater = { running := false, interval := 0, tick_ms := 0, received_ack := false }
      ∧ c1.last_sequence_number = H.DISCORD_NULL_SEQUENCE_NUMBER
      ∧ c1.buffer_len = 0
      ∧ c1.released = c.released ++ [released_t.session s]
      ∧ Legacy.discord_logout H true (some c1) = some (ESP_OK, some c1) := by
  cases hws : c.ws with
  | none =>
    cases he : c.event_handle <;>
      simp [Legacy.discord_logout, Legacy.gw_close, Legacy.gw_reset, Legacy.gw_heartbeat_stop,
        Legacy.discord_model_gateway_session_free, hws, hs, he]
  | some ws =>
    cases he : c.event_handle <;> cases hc : ws.connected <;>
      simp [Legacy.discord_logout, Legacy.gw_close, Legacy.gw_reset, Legacy.gw_heartbeat_stop,
        Legacy.discord_model_gateway_session_free, hws, hs, he, hc]

theorem legacy_logout_safe (H : gateway_header) (c : Legacy.discord_client) :
    ∃ c1, Legacy.discord_logout H true (some c) = some (ESP_OK, some c1)
      ∧ c1.state = Legacy.discord_client_state_t.DISCORD_CLIENT_STATE_UNKNOWN
      ∧ c1.running = false
      ∧ c1.session = none
      ∧ c1.heartbeater = { running := false, interval := 0, tick_ms := 0, received_ack := false }
      ∧ c1.last_sequence_number = H.DISCORD_NULL_SEQUENCE_NUMBER
      ∧ c1.buffer_len = 0
      ∧ Legacy.discord_logout H true (some c1) = some (ESP_OK, some c1) := by
  cases hws : c.ws with
  | none =>
    cases hs : c.session <;> cases he : c.event_handle <;>
      simp [Legacy.discord_logout, Legacy.gw_close, Legacy.gw_reset, Legacy.gw_heartbeat_stop,
        Legacy.discord_model_gateway_session_free, hws, hs, he]
  | some ws =>
    cases hs : c.session <;> cases he : c.event_handle <;> cases hc : ws.connected <;>
      simp [Legacy.discord_logout, Legacy.gw_close, Legacy.gw_reset, Legacy.gw_heartbeat_stop,
        Legacy.discord_model_gateway_session_free, hws, hs, he, hc]

theorem legacy_close_session (H : gateway_header) (c : Legacy.discord_client)
    (reason : Legacy.discord_close_reason_t) :
    (Legacy.gw_close H c reason).2.session = c.session := by
  unfold Legacy.gw_close
  cases c.ws with
  | none => rfl
  | some ws => simp only []; split <;> rfl

/-- Claim C14 fails on the code: `gw_close` stores the reason and then calls `gw_reset`, which
sets `close_reason` back to `NOT_REQUESTED`. So for every client and every reason, after
`gw_close` returns `close_reason` is `NOT_REQUESTED`; when the transport then reports
Disconnected, the switch of `dc_task` takes the branch of the unexpected drop, which is the call
of `discord_logout`: a client with a session ends in state `UNKNOWN`, not running, instead of
being reset into `INIT`, and so does every client if the release of the session is safe on
`NULL`. The last part evaluates this at a connected client closed for `RECONNECT`. -/
theorem gw_close_discards_reason (H : gateway_header) (E : gateway_env) (null_safe : Bool)
    (c : Legacy.discord_client) (reason : Legacy.discord_close_reason_t) (now : Nat)
    (s : discord_gateway_session_t) :
    (Legacy.gw_close H c reason).1 = ESP_OK
    ∧ (Legacy.gw_close H c reason).2.close_reason
        = Legacy.discord_close_reason_t.DISCORD_CLOSE_REASON_NOT_REQUESTED
    ∧ Legacy.dc_task_switch H E null_safe
        (Legacy.gw_websocket_event_handler (Legacy.gw_close H c reason).2
          WEBSOCKET_EVENT_DISCONNECTED no_data) now
        = (Legacy.discord_logout H null_safe (some (Legacy.gw_websocket_event_handler
            (Legacy.gw_close H c reason).2 WEBSOCKET_EVENT_DISCONNECTED no_data))).bind Prod.snd
    ∧ (Legacy.dc_task_switch H E null_safe
        (Legacy.gw_websocket_event_handler (Legacy.gw_close H { c with session := some s } reason).2
          WEBSOCKET_EVENT_DISCONNECTED no_data) now).map (fun r => (r.state, r.running))
        = some (Legacy.discord_client_state_t.DISCORD_CLIENT_STATE_UNKNOWN, false)
    ∧ (Legacy.dc_task_switch H E true
        (Legacy.gw_websocket_event_handler (Legacy.gw_close H c reason).2
          WEBSOCKET_EVENT_DISCONNECTED no_data) now).map (fun r => (r.state, r.running))
        = some (Legacy.discord_client_state_t.DISCORD_CLIENT_STATE_UNKNOWN, false)
    ∧ ((Legacy.gw_close example_header Legacy.example_client
          Legacy.discord_close_reason_t.DISCORD_CLOSE_REASON_RECONNECT).2.close_reason
        = Legacy.discord_close_reason_t.DISCORD_CLOSE_REASON_NOT_REQUESTED
      ∧ (Legacy.dc_task_switch example_header example_env false
          (Legacy.gw_websocket_event_handler
            (Legacy.gw_close example_header Legacy.example_client
              Legacy.discord_close_reason_t.DISCORD_CLOSE_REASON_RECONNECT).2
            WEBSOCKET_EVENT_DISCONNECTED no_data) 0).map (fun r => (r.state, r.running))
        = some (Legacy.discord_client_state_t.DISCORD_CLIENT_STATE_UNKNOWN, false)) := by
  have hswitch : ∀ (ns : Bool) (c' : Legacy.discord_client),
      Legacy.dc_task_switch H E ns
        (Legacy.gw_websocket_event_handler (Legacy.gw_close H c' reason).2
          WEBSOCKET_EVENT_DISCONNECTED no_data) now
        = (Legacy.discord_logout H ns (some (Legacy.gw_websocket_event_handler
            (Legacy.gw_close H c' reason).2 WEBSOCKET_EVENT_DISCONNECTED no_data))).bind
            Prod.snd := by
    intro ns c'
    have hst : (Legacy.gw_websocket_event_handler (Legacy.gw_close H c' reason).2
        WEBSOCKET_EVENT_DISCONNECTED no_data).state
        = Legacy.discord_client_state_t.DISCORD_CLIENT_STATE_DISCONNECTED := rfl
    have hcr : (Legacy.gw_websocket_event_handler (Legacy.gw_close H c' reason).2
        WEBSOCKET_EVENT_DISCONNECTED no_data).close_reason
        = Legacy.discord_close_reason_t.DISCORD_CLOSE_REASON_NOT_REQUESTED :=
      (legacy_close_fields H c' reason).2.1
    unfold Legacy.dc_task_switch
    rw [hst]
    simp only []
    rw [if_pos hcr]
  obtain ⟨h1, h2, _⟩ := legacy_close_fields H c reason
  refine ⟨h1, h2, hswitch null_safe c, ?_, ?_, by decide, by decide⟩
  rotate_left
  · rw [hswitch]
    obtain ⟨c1, g1, g2, g3, _⟩ := legacy_logout_safe H (Legacy.gw_websocket_event_handler
      (Legacy.gw_close H c reason).2 WEBSOCKET_EVENT_DISCONNECTED no_data)
    rw [g1]
    simp [g2, g3]
  rw [hswitch]
  have hsess : (Legacy.gw_websocket_event_handler
      (Legacy.gw_close H { c with session := some s } reason).2
      WEBSOCKET_EVENT_DISCONNECTED no_data).session = some s := by
    show (Legacy.gw_close H { c with session := some s } reason).2.session = some s
    rw [legacy_close_session]
  obtain ⟨c1, g1, g2, g3, _⟩ := legacy_logout_session H null_safe _ s hsess
  rw [g1]
  simp [g2, g3]

end EspDiscord
